import Mathlib

/-!
Shallow embedding of the datamodel validator
(`libs/datamodel/core/src/transform/ast_to_dml/validate.rs`) and proofs about
its rule engine: the two validation passes, the diagnostic bag, the rules for
identity criteria, relation base/referenced fields, index naming, connector
capability gating, and the internal state-error discipline.

Rust panics (`expect`, `unwrap`) are modelled as `Except.error msg` where `msg`
is the panic message; the diagnostic bag is a `List DatamodelError` in
insertion order, and `Result<(), Diagnostics>` is `Except (List DatamodelError) Unit`.
-/

namespace Prisma

/-- Byte span `[start, stop)` attached to AST entities. -/
structure Span where
  start : Nat
  stop : Nat
deriving DecidableEq, Repr

def Span.empty : Span := ⟨0, 0⟩

/-- AST identifier with its span. -/
structure Identifier where
  name : String
  span : Span
deriving DecidableEq, Repr

/-- AST attribute (e.g. `@id`, `@relation`, `@@index`). -/
structure AstAttribute where
  name : Identifier
  span : Span
deriving DecidableEq, Repr

/-- AST field of a model. -/
structure AstField where
  name : Identifier
  attributes : List AstAttribute
  span : Span
deriving DecidableEq, Repr

/-- AST model declaration. -/
structure AstModel where
  name : Identifier
  fields : List AstField
  attributes : List AstAttribute
  span : Span
deriving DecidableEq, Repr

/-- AST enum value. -/
structure AstEnumValue where
  name : Identifier
  attributes : List AstAttribute
  span : Span
deriving DecidableEq, Repr

/-- AST enum declaration. -/
structure AstEnum where
  name : Identifier
  values : List AstEnumValue
  attributes : List AstAttribute
  span : Span
deriving DecidableEq, Repr

/-- The parsed schema: `ast::SchemaAst`. -/
structure SchemaAst where
  models : List AstModel
  enums : List AstEnum
deriving DecidableEq, Repr

def SchemaAst.find_model (s : SchemaAst) (name : String) : Option AstModel :=
  s.models.find? (fun m => m.name.name == name)

def SchemaAst.find_enum (s : SchemaAst) (name : String) : Option AstEnum :=
  s.enums.find? (fun e => e.name.name == name)

def SchemaAst.find_field (s : SchemaAst) (model_name field_name : String) : Option AstField :=
  (s.find_model model_name).bind (fun m => m.fields.find? (fun f => f.name.name == field_name))

/-- `ast::Model::find_field` lookup (the Rust accessor panics when the field is
absent; call sites below surface that panic explicitly). -/
def AstModel.find_field_opt (m : AstModel) (field_name : String) : Option AstField :=
  m.fields.find? (fun f => f.name.name == field_name)

/-- `attribute.is_index()`: the `@@index` attribute is the one named `index`. -/
def AstAttribute.is_index (a : AstAttribute) : Bool := a.name.name == "index"

/-- DMIR field arity. -/
inductive FieldArity
  | required
  | optional
  | list
deriving DecidableEq, Repr

/-- DMIR scalar types (the ones the rules inspect). -/
inductive ScalarType
  | int
  | bigInt
  | float
  | boolean
  | string
  | dateTime
  | json
  | bytes
  | decimal
deriving DecidableEq, Repr

/-- `dml::RelationInfo`: target model, relation name, base fields, referenced fields. -/
structure RelationInfo where
  «to» : String
  name : String
  fields : List String
  references : List String
deriving DecidableEq, Repr

/-- `dml::FieldType`. -/
inductive FieldType
  | base (scalar : ScalarType)
  | nativeType (scalar : ScalarType) (serialized_native_type : String)
  | enum (enum_name : String)
  | relation (info : RelationInfo)
  | unsupported (description : String)
deriving DecidableEq, Repr

def FieldType.scalar_type : FieldType → Option ScalarType
  | .base s => some s
  | .nativeType s _ => some s
  | _ => none

def FieldType.as_native_type : FieldType → Option (ScalarType × String)
  | .nativeType s n => some (s, n)
  | _ => none

def FieldType.as_base : FieldType → Option ScalarType
  | .base s => some s
  | _ => none

def FieldType.is_unsupported : FieldType → Bool
  | .unsupported _ => true
  | _ => false

/-- Modelled from the spec: `FieldType::is_compatible_with` lives in the `dml`
crate, which is not under `src/`; the spec only names the predicate (§4.3 R13),
so it is modelled as structural equality of field types. -/
def FieldType.is_compatible_with (a b : FieldType) : Bool := a == b

/-- Values a default can carry (the rules only inspect enum literals). -/
inductive PrismaValue
  | enum (value : String)
  | string (value : String)
  | int (value : Int)
deriving DecidableEq, Repr

/-- `dml::DefaultValue`. -/
inductive DefaultValue
  | single (value : PrismaValue)
  | expression (name : String)
deriving DecidableEq, Repr

/-- DMIR scalar field. -/
structure ScalarField where
  name : String
  field_type : FieldType
  arity : FieldArity
  is_id : Bool
  is_unique : Bool
  default_value : Option DefaultValue
deriving DecidableEq, Repr

def ScalarField.is_required (f : ScalarField) : Bool := f.arity == .required
def ScalarField.is_optional (f : ScalarField) : Bool := f.arity == .optional
def ScalarField.is_list (f : ScalarField) : Bool := f.arity == .list

/-- Modelled from the spec (R11): a field uses auto-increment when its default
is the `autoincrement()` expression (the `dml` crate is not under `src/`). -/
def ScalarField.is_auto_increment (f : ScalarField) : Bool :=
  f.default_value == some (.expression "autoincrement")

/-- DMIR relation field. -/
structure RelationField where
  name : String
  arity : FieldArity
  relation_info : RelationInfo
  is_ignored : Bool
deriving DecidableEq, Repr

def RelationField.is_required (f : RelationField) : Bool := f.arity == .required
def RelationField.is_list (f : RelationField) : Bool := f.arity == .list
def RelationField.is_singular (f : RelationField) : Bool := f.arity != .list

/-- DMIR field: scalar or relation. -/
inductive Field
  | scalar (f : ScalarField)
  | relation (f : RelationField)
deriving DecidableEq, Repr

def Field.name : Field → String
  | .scalar f => f.name
  | .relation f => f.name

def Field.field_type : Field → FieldType
  | .scalar f => f.field_type
  | .relation f => .relation f.relation_info

inductive IndexType
  | normal
  | unique
deriving DecidableEq, Repr

/-- `dml::IndexDefinition` (`@@index` / `@@unique`). -/
structure IndexDefinition where
  name : Option String
  fields : List String
  tpe : IndexType
deriving DecidableEq, Repr

/-- DMIR model. -/
structure Model where
  name : String
  fields : List Field
  id_fields : List String
  indices : List IndexDefinition
  is_ignored : Bool
deriving DecidableEq, Repr

def Model.scalar_fields (m : Model) : List ScalarField :=
  m.fields.filterMap (fun f => match f with
    | .scalar sf => some sf
    | .relation _ => none)

def Model.relation_fields (m : Model) : List RelationField :=
  m.fields.filterMap (fun f => match f with
    | .scalar _ => none
    | .relation rf => some rf)

def Model.find_field (m : Model) (field_name : String) : Option Field :=
  m.fields.find? (fun f => f.name == field_name)

def Model.find_scalar_field (m : Model) (field_name : String) : Option ScalarField :=
  m.scalar_fields.find? (fun f => f.name == field_name)

def Model.find_relation_field (m : Model) (field_name : String) : Option RelationField :=
  m.relation_fields.find? (fun f => f.name == field_name)

def Model.singular_id_fields (m : Model) : List ScalarField :=
  m.scalar_fields.filter (fun f => f.is_id)

def Model.auto_increment_fields (m : Model) : List ScalarField :=
  m.scalar_fields.filter (fun f => f.is_auto_increment)

/-- Modelled from the spec (R13m, §6): `has_single_id_field` — the model has
exactly one singular `@id` field (the `dml` crate is not under `src/`). -/
def Model.has_single_id_field (m : Model) : Bool :=
  m.singular_id_fields.length == 1

/-- Modelled from the spec (R11): `field_is_indexed` — the field is covered by
an identity, a unique marker, the composite id, or some index (the `dml` crate
is not under `src/`). -/
def Model.field_is_indexed (m : Model) (field_name : String) : Bool :=
  (match m.find_scalar_field field_name with
    | some f => f.is_id || f.is_unique
    | none => false)
  || m.id_fields.contains field_name
  || m.indices.any (fun idx => idx.fields.contains field_name)

/-- A uniqueness criterion: an ordered list of member scalar fields. -/
structure UniqueCriterion where
  fields : List ScalarField
deriving DecidableEq, Repr

/-- Modelled from the spec (§3, glossary): the loose unique criteria of a model
are all declared uniqueness keys — each singular `@id` field, the composite
`@@id` if present, each `@unique` field, and each unique index (the `dml`
crate is not under `src/`). -/
def Model.loose_unique_criterias (m : Model) : List UniqueCriterion :=
  (m.singular_id_fields.map (fun f => ⟨[f]⟩))
  ++ (if m.id_fields.isEmpty then [] else [⟨m.id_fields.filterMap (fun n => m.find_scalar_field n)⟩])
  ++ ((m.scalar_fields.filter (fun f => f.is_unique)).map (fun f => ⟨[f]⟩))
  ++ (m.indices.filterMap (fun idx =>
        if idx.tpe == .unique then some ⟨idx.fields.filterMap (fun n => m.find_scalar_field n)⟩ else none))

/-- Modelled from the spec (R4, glossary): the strict criteria are the loose
ones whose member fields are all required, disregarding `Unsupported`-typed
members (the `dml` crate is not under `src/`). -/
def Model.strict_unique_criterias_disregarding_unsupported (m : Model) : List UniqueCriterion :=
  m.loose_unique_criterias.filter
    (fun c => c.fields.all (fun f => f.is_required || f.field_type.is_unsupported))

/-- DMIR enum value. -/
structure EnumValue where
  name : String
deriving DecidableEq, Repr

/-- DMIR enum. -/
structure Enum where
  name : String
  values : List EnumValue
deriving DecidableEq, Repr

/-- The elaborated datamodel: `dml::Datamodel`. -/
structure Datamodel where
  models : List Model
  enums : List Enum
deriving DecidableEq, Repr

def Datamodel.find_model (dm : Datamodel) (name : String) : Option Model :=
  dm.models.find? (fun m => m.name == name)

def Datamodel.find_enum (dm : Datamodel) (name : String) : Option Enum :=
  dm.enums.find? (fun e => e.name == name)

/-- Modelled from the spec (§6, §9): `find_related_field` — back-relation
discovery by search: in the target model, find the relation field pointing
back to the owning model under the same relation name; on a self-relation the
field itself is excluded by name (the `dml` crate is not under `src/`).
`owner` is the name of the model owning `rf`. -/
def Datamodel.find_related_field (dm : Datamodel) (owner : String) (rf : RelationField) : Option RelationField :=
  (dm.find_model rf.relation_info.«to»).bind (fun target =>
    target.relation_fields.find? (fun g =>
      g.relation_info.«to» == owner && g.relation_info.name == rf.relation_info.name
        && (if rf.relation_info.«to» == owner then g.name != rf.name else true)))

/-- Connector capability surface (`combined_connector` / `active_connector`).
The two structural validators return `some message` on rejection. -/
structure Connector where
  supports_multiple_indexes_with_same_name : Bool
  supports_scalar_lists : Bool
  supports_json : Bool
  supports_multiple_auto_increment : Bool
  supports_non_id_auto_increment : Bool
  supports_non_indexed_auto_increment : Bool
  supports_relations_over_non_unique_criteria : Bool
  allows_relation_fields_in_arbitrary_order : Bool
  validate_field : Field → Option String
  validate_model : Model → Option String
  default_native_type_for_scalar_type : ScalarType → String

/-- `configuration::Datasource` facets consumed by the validator. -/
structure Datasource where
  combined_connector : Connector
  active_connector : Connector

/-- Diagnostic kinds produced by the validator (`DatamodelError` constructors
used in `validate.rs`; argument order follows the `new_*` constructors). -/
inductive DatamodelError
  | attribute_validation (message : String) (attribute_name : String) (span : Span)
  | field_validation (message : String) (model_name : String) (field_name : String) (span : Span)
  | model_validation (message : String) (model_name : String) (span : Span)
  | enum_validation (message : String) (enum_name : String) (span : Span)
  | connector_error (message : String) (span : Span)
  | validation (message : String) (span : Span)
  | multiple_indexes_with_same_name (index_name : String) (span : Span)
  | scalar_list_fields_are_not_supported (model_name : String) (field_name : String) (span : Span)
deriving DecidableEq, Repr

/-- State error message (`const STATE_ERROR` in `validate.rs`). -/
def STATE_ERROR : String :=
  "Failed lookup of model, field or optional property during internal processing. This means that the internal representation was mutated incorrectly."

def RELATION_ATTRIBUTE_NAME : String := "relation"
def RELATION_ATTRIBUTE_NAME_WITH_AT : String := "@relation"
def PRISMA_FORMAT_HINT : String := "You can run `prisma format` to fix this automatically."

/-- Panic message of a bare `unwrap()` on `None`. -/
def UNWRAP_PANIC : String := "called Option::unwrap on a None value"

/-- Modelled from the spec: `ast::Model::find_field` (not under `src/`) panics
when the field is absent; its exact message is irrelevant, only that it is not
the state error. -/
def FIND_FIELD_PANIC : String := "Could not find field in AST model during internal processing."

/-- `.expect(STATE_ERROR)` on an `Option`. -/
def expect_state {α : Type} (o : Option α) : Except String α :=
  match o with
  | some a => .ok a
  | none => .error STATE_ERROR

/-- Sequencing helper: run `f` on every element, concatenating the produced
diagnostics, propagating the first panic. -/
def except_concat_map {α β : Type} (f : α → Except String (List β)) : List α → Except String (List β)
  | [] => .ok []
  | x :: xs =>
    match f x with
    | .error m => .error m
    | .ok h =>
      match except_concat_map f xs with
      | .error m => .error m
      | .ok t => .ok (h ++ t)

/-- Sequencing helper: stateful left fold, propagating the first panic. -/
def except_foldl {σ α : Type} (f : σ → α → Except String σ) : σ → List α → Except String σ
  | s, [] => .ok s
  | s, x :: xs =>
    match f s x with
    | .error m => .error m
    | .ok s2 => except_foldl f s2 xs

/-- Sequencing helper: first `some` result of `f` over a list (early return),
propagating the first panic. -/
def first_some_except {α β : Type} (f : α → Except String (Option β)) : List α → Except String (Option β)
  | [] => .ok none
  | x :: xs =>
    match f x with
    | .error m => .error m
    | .ok (some b) => .ok (some b)
    | .ok none => first_some_except f xs

/-- Modelled from the spec (R1): the identifier grammar — letter or underscore
followed by letters, digits or underscores, non-empty (name validation lives
outside `src/`). -/
def is_valid_identifier (s : String) : Bool :=
  match s.data with
  | [] => false
  | c :: cs => (c.isAlpha || c == '_') && cs.all (fun d => d.isAlphanum || d == '_')

/-- Modelled from the spec (R1): `Identifier::validate(schema_item)` produces a
validation error for a name that does not match the identifier grammar. -/
def Identifier.validate (id : Identifier) (schema_item : String) : Option DatamodelError :=
  if is_valid_identifier id.name then none
  else some (.validation (schema_item ++ " has an invalid name.") id.span)

/-- Modelled from the spec (R1): `validate_attributes` — attached attributes
must have well-formed names. -/
def validate_attribute_names (atts : List AstAttribute) : List DatamodelError :=
  atts.filterMap (fun att =>
    if is_valid_identifier att.name.name then none
    else some (.validation "The attached attribute has an invalid name." att.span))

/-- `Validator::validate_names`. -/
def validate_names (ast_schema : SchemaAst) : List DatamodelError :=
  ((ast_schema.models.map (fun model =>
    (model.name.validate "Model").toList
    ++ validate_attribute_names model.attributes
    ++ ((model.fields.map (fun field =>
          (field.name.validate "Field").toList
          ++ validate_attribute_names field.attributes)).flatten))).flatten)
  ++ ((ast_schema.enums.map (fun enum_decl =>
    (enum_decl.name.validate "Enum").toList
    ++ validate_attribute_names enum_decl.attributes
    ++ ((enum_decl.values.map (fun enum_value =>
          (enum_value.name.validate "Enum Value").toList
          ++ validate_attribute_names enum_value.attributes)).flatten))).flatten)

def multiple_indexes_supported (source : Option Datasource) : Bool :=
  match source with
  | some s => s.combined_connector.supports_multiple_indexes_with_same_name
  | none => false

/-- `HashSet::insert` on the list model of the seen-names set. -/
def insert_name (n : String) (seen : List String) : List String :=
  if seen.contains n then seen else seen ++ [n]

/-- One index of one model inside `Validator::validate_names_for_indexes`:
duplicate named indexes (under a connector without
`supports_multiple_indexes_with_same_name`) are reported at the span of the
first `@@index` attribute of the AST model, found by `is_index`. -/
def index_names_step (supported : Bool) (ast_model : AstModel) :
    List String × List DatamodelError → IndexDefinition → Except String (List String × List DatamodelError)
  | (seen, errs), index =>
    match index.name with
    | none => .ok (seen, errs)
    | some index_name =>
      if seen.contains index_name && !supported then
        match ast_model.attributes.find? (fun att => att.is_index) with
        | none => .error UNWRAP_PANIC
        | some ast_index =>
          .ok (insert_name index_name seen,
               errs ++ [.multiple_indexes_with_same_name index_name ast_index.span])
      else
        .ok (insert_name index_name seen, errs)

/-- `Validator::validate_names_for_indexes`. -/
def validate_names_for_indexes (source : Option Datasource) (ast_schema : SchemaAst)
    (schema : Datamodel) : Except String (List DatamodelError) :=
  match except_foldl (fun st model =>
      match ast_schema.find_model model.name with
      | none => .ok st
      | some ast_model =>
        except_foldl (index_names_step (multiple_indexes_supported source) ast_model) st model.indices)
    ([], []) schema.models with
  | .error m => .error m
  | .ok st => .ok st.2

/-- The id-arity check at the top of the model loop of `Validator::validate`:
a non-required singular `@id` field is an error unless the model is ignored;
the blamed span is the `@id` attribute of the AST field (panicking lookups on
the AST model and on the attribute, tolerant on the field). -/
def id_arity_errors (ast_schema : SchemaAst) (model : Model) : Except String (List DatamodelError) :=
  match model.scalar_fields.find? (fun f => f.is_id && !f.is_required) with
  | none => .ok []
  | some sf =>
    if model.is_ignored then .ok []
    else
      match ast_schema.models.find? (fun am => am.name.name == model.name) with
      | none => .error UNWRAP_PANIC
      | some ast_model =>
        match ast_model.fields.find? (fun f => f.name.name == sf.name) with
        | none => .ok [.attribute_validation "Fields that are marked as id must be required." "id" Span.empty]
        | some ast_field =>
          match ast_field.attributes.find? (fun att => att.name.name == "id") with
          | none => .error UNWRAP_PANIC
          | some att => .ok [.attribute_validation "Fields that are marked as id must be required." "id" att.span]

/-- `Validator::validate_model_has_strict_unique_criteria`. -/
def validate_model_has_strict_unique_criteria (ast_model : AstModel) (model : Model) : Option DatamodelError :=
  if model.singular_id_fields.length > 1 then
    some (.model_validation "At most one field must be marked as the id field with the `@id` attribute."
      model.name ast_model.span)
  else if !model.singular_id_fields.isEmpty && !model.id_fields.isEmpty then
    some (.model_validation "Each model must have at most one id criteria. You can't have `@id` and `@@id` at the same time."
      model.name ast_model.span)
  else
    let loose_criterias := model.loose_unique_criterias
    let suffix :=
      if loose_criterias.isEmpty then ""
      else
        " The following unique criterias were not considered as they contain fields that are not required:\n"
        ++ String.intercalate "\n"
             (loose_criterias.map (fun criteria =>
               "- " ++ String.intercalate ", " (criteria.fields.map (fun f => f.name))))
    if model.strict_unique_criterias_disregarding_unsupported.isEmpty && !model.is_ignored then
      some (.model_validation
        ("Each model must have at least one unique criteria that has only required fields. Either mark a single field with `@id`, `@unique` or add a multi field criterion with `@@id([])` or `@@unique([])` to the model."
          ++ suffix)
        model.name ast_model.span)
    else none

/-- Modelled from the spec (§4.5): the closed reserved-name table
(`reserved_model_names::TypeNameValidator`, not under `src/`). -/
def RESERVED_TYPE_NAMES : List String :=
  ["String", "Int", "Float", "Boolean", "DateTime", "Json", "Bytes", "Decimal", "BigInt", "PrismaClient"]

def is_reserved_type_name (name : String) : Bool := RESERVED_TYPE_NAMES.contains name

/-- `Validator::validate_model_name`. -/
def validate_model_name (ast_model : AstModel) (model : Model) : Option DatamodelError :=
  if is_reserved_type_name model.name then
    some (.model_validation
      ("The model name `" ++ model.name ++ "` is invalid. It is a reserved name. Please change it. Read more at https://pris.ly/d/naming-models")
      model.name ast_model.span)
  else none

/-- `Validator::validate_enum_name`. -/
def validate_enum_name (ast_enum : AstEnum) (dml_enum : Enum) : Option DatamodelError :=
  if is_reserved_type_name dml_enum.name then
    some (.enum_validation
      ("The enum name `" ++ dml_enum.name ++ "` is invalid. It is a reserved name. Please change it. Read more at https://www.prisma.io/docs/reference/tools-and-interfaces/prisma-schema/data-model#naming-enums")
      dml_enum.name ast_enum.span)
  else none

/-- One ordered pair `(field_a, field_b)` of distinct relation fields inside
`Validator::validate_relations_not_ambiguous`; `all` is the full relation-field
list iterated by the inner `field_c` loop. Every blamed span is looked up for
`field_a` with `.expect(STATE_ERROR)`. -/
def ambiguous_pair_check (ast_schema : SchemaAst) (model : Model) (all : List RelationField)
    (field_a field_b : RelationField) : Except String (Option DatamodelError) :=
  if field_a == field_b then .ok none
  else
    let rel_a := field_a.relation_info
    let rel_b := field_b.relation_info
    if rel_a.«to» != model.name && rel_b.«to» != model.name then
      if rel_a.«to» == rel_b.«to» && rel_a.name == rel_b.name then
        match SchemaAst.find_field ast_schema model.name field_a.name with
        | none => .error STATE_ERROR
        | some ast_field =>
          if rel_a.name.isEmpty then
            .ok (some (.model_validation
              ("Ambiguous relation detected. The fields `" ++ field_a.name ++ "` and `" ++ field_b.name
                ++ "` in model `" ++ model.name ++ "` both refer to `" ++ rel_a.«to»
                ++ "`. Please provide different relation names for them by adding `@relation(<name>).")
              model.name ast_field.span))
          else
            .ok (some (.model_validation
              ("Wrongly named relation detected. The fields `" ++ field_a.name ++ "` and `" ++ field_b.name
                ++ "` in model `" ++ model.name
                ++ "` both use the same relation name. Please provide different relation names for them through `@relation(<name>).")
              model.name ast_field.span))
      else .ok none
    else if rel_a.«to» == model.name && rel_b.«to» == model.name then
      match all.find? (fun field_c =>
          field_a != field_c && field_b != field_c
            && field_c.relation_info.«to» == model.name
            && rel_a.name == rel_b.name && rel_a.name == field_c.relation_info.name) with
      | some field_c =>
        (match SchemaAst.find_field ast_schema model.name field_a.name with
          | none => .error STATE_ERROR
          | some ast_field =>
            if rel_a.name.isEmpty then
              .ok (some (.model_validation
                ("Unnamed self relation detected. The fields `" ++ field_a.name ++ "`, `" ++ field_b.name
                  ++ "` and `" ++ field_c.name ++ "` in model `" ++ model.name
                  ++ "` have no relation name. Please provide a relation name for one of them by adding `@relation(<name>).")
                model.name ast_field.span))
            else
              .ok (some (.model_validation
                ("Wrongly named self relation detected. The fields `" ++ field_a.name ++ "`, `" ++ field_b.name
                  ++ "` and `" ++ field_c.name ++ "` in model `" ++ model.name
                  ++ "` have the same relation name. At most two relation fields can belong to the same relation and therefore have the same name. Please assign a different relation name to one of them.")
                model.name ast_field.span)))
      | none =>
        if rel_a.name.isEmpty && rel_b.name.isEmpty then
          match SchemaAst.find_field ast_schema model.name field_a.name with
          | none => .error STATE_ERROR
          | some ast_field =>
            .ok (some (.model_validation
              ("Ambiguous self relation detected. The fields `" ++ field_a.name ++ "` and `" ++ field_b.name
                ++ "` in model `" ++ model.name ++ "` both refer to `" ++ rel_a.«to»
                ++ "`. If they are part of the same relation add the same relation name for them with `@relation(<name>)`.")
              model.name ast_field.span))
        else .ok none
    else .ok none

/-- `Validator::validate_relations_not_ambiguous`: nested loops over ordered
pairs of relation fields, returning at the first violation. -/
def validate_relations_not_ambiguous (ast_schema : SchemaAst) (model : Model) :
    Except String (Option DatamodelError) :=
  first_some_except (fun field_a =>
      first_some_except (fun field_b =>
          ambiguous_pair_check ast_schema model model.relation_fields field_a field_b)
        model.relation_fields)
    model.relation_fields

/-- `Validator::validate_field_arities`: scalar lists on a connector without
scalar-list support (no datasource counts as unsupported). -/
def validate_field_arities (source : Option Datasource) (ast_model : AstModel) (model : Model) :
    Except String (List DatamodelError) :=
  let scalar_lists_are_supported :=
    match source with
    | some s => s.combined_connector.supports_scalar_lists
    | none => false
  except_concat_map (fun field =>
    if field.is_list && !scalar_lists_are_supported then
      match ast_model.find_field_opt field.name with
      | none => .error FIND_FIELD_PANIC
      | some af => .ok [.scalar_list_fields_are_not_supported model.name field.name af.span]
    else .ok []) model.scalar_fields

/-- `Validator::validate_field_types`: `Json`-typed scalars on a connector
without Json support (no datasource counts as unsupported). -/
def validate_field_types (source : Option Datasource) (ast_model : AstModel) (model : Model) :
    Except String (List DatamodelError) :=
  except_concat_map (fun field =>
    match field.field_type.scalar_type with
    | some .json =>
      let supports_json_type :=
        match source with
        | some s => s.combined_connector.supports_json
        | none => false
      if !supports_json_type then
        match ast_model.find_field_opt field.name with
        | none => .error FIND_FIELD_PANIC
        | some af =>
          .ok [.field_validation
            ("Field `" ++ field.name ++ "` in model `" ++ model.name
              ++ "` can't be of type Json. The current connector does not support the Json type.")
            model.name field.name af.span]
      else .ok []
    | _ => .ok []) model.scalar_fields

/-- `Validator::validate_enum_default_values`. -/
def validate_enum_default_values (data_model : Datamodel) (ast_model : AstModel) (model : Model) :
    Except String (List DatamodelError) :=
  except_concat_map (fun field =>
    match field.default_value with
    | some (.single (.enum enum_value)) =>
      match field.field_type with
      | .enum enum_name =>
        match data_model.find_enum enum_name with
        | some dml_enum =>
          if !dml_enum.values.any (fun value => value.name == enum_value) then
            match ast_model.find_field_opt field.name with
            | none => .error FIND_FIELD_PANIC
            | some af =>
              .ok [.attribute_validation
                "The defined default value is not a valid value of the enum specified for the field."
                "default" af.span]
          else .ok []
        | none => .ok []
      | _ => .ok []
    | _ => .ok []) model.scalar_fields

/-- `Validator::validate_auto_increment` (runs only with a datasource; the
AST field lookup is eager per scalar field and panics when missing). -/
def validate_auto_increment (source : Option Datasource) (ast_model : AstModel) (model : Model) :
    Except String (List DatamodelError) :=
  match source with
  | none => .ok []
  | some data_source =>
    let multi_part :=
      if !data_source.combined_connector.supports_multiple_auto_increment
          && model.auto_increment_fields.length > 1 then
        [DatamodelError.attribute_validation
          "The `autoincrement()` default value is used multiple times on this model even though the underlying datasource only supports one instance per table."
          "default" ast_model.span]
      else []
    match except_concat_map (fun field =>
        match ast_model.find_field_opt field.name with
        | none => .error FIND_FIELD_PANIC
        | some ast_field =>
          let non_id_part :=
            if !field.is_id && field.is_auto_increment
                && !data_source.combined_connector.supports_non_id_auto_increment then
              [DatamodelError.attribute_validation
                "The `autoincrement()` default value is used on a non-id field even though the datasource does not support this."
                "default" ast_field.span]
            else []
          let non_indexed_part :=
            if field.is_auto_increment && !model.field_is_indexed field.name
                && !data_source.combined_connector.supports_non_indexed_auto_increment then
              [DatamodelError.attribute_validation
                "The `autoincrement()` default value is used on a non-indexed field even though the datasource does not support this."
                "default" ast_field.span]
            else []
          .ok (non_id_part ++ non_indexed_part)) model.scalar_fields with
    | .error m => .error m
    | .ok rest => .ok (multi_part ++ rest)

/-- `Validator::validate_field_connector_specific`. -/
def validate_field_connector_specific (source : Option Datasource) (ast_model : AstModel) (model : Model) :
    Except String (List DatamodelError) :=
  match source with
  | none => .ok []
  | some s =>
    except_concat_map (fun field =>
      match s.active_connector.validate_field field with
      | some err =>
        match ast_model.find_field_opt field.name with
        | none => .error FIND_FIELD_PANIC
        | some af => .ok [.connector_error err af.span]
      | none => .ok []) model.fields

/-- `Validator::validate_model_connector_specific`. -/
def validate_model_connector_specific (source : Option Datasource) (ast_model : AstModel) (model : Model) :
    List DatamodelError :=
  match source with
  | none => []
  | some s =>
    match s.active_connector.validate_model model with
    | some err => [.connector_error err ast_model.span]
    | none => []

/-- One relation field inside `Validator::validate_base_fields_for_relation`
(the AST field lookup is eager and panics when missing). -/
def base_field_errors (ast_model : AstModel) (model : Model) (field : RelationField) :
    Except String (List DatamodelError) :=
  match ast_model.find_field_opt field.name with
  | none => .error FIND_FIELD_PANIC
  | some ast_field =>
    let rel_info := field.relation_info
    let unknown_fields := rel_info.fields.filter (fun base_field => (model.find_field base_field).isNone)
    let referenced_relation_fields :=
      rel_info.fields.filter (fun base_field => (model.find_relation_field base_field).isSome)
    let at_least_one_underlying_field_is_optional :=
      (rel_info.fields.filterMap (fun base_field => model.find_scalar_field base_field)).any
        (fun f => !f.is_required)
    let all_underlying_fields_are_optional :=
      (rel_info.fields.all (fun base_field =>
        match model.find_scalar_field base_field with
        | some f => f.is_optional
        | none => false)) && !rel_info.fields.isEmpty
    .ok ((if !unknown_fields.isEmpty then
            [DatamodelError.validation
              ("The argument fields must refer only to existing fields. The following fields do not exist in this model: "
                ++ String.intercalate ", " unknown_fields)
              ast_field.span]
          else [])
      ++ (if !referenced_relation_fields.isEmpty then
            [DatamodelError.validation
              ("The argument fields must refer only to scalar fields. But it is referencing the following relation fields: "
                ++ String.intercalate ", " referenced_relation_fields)
              ast_field.span]
          else [])
      ++ (if at_least_one_underlying_field_is_optional && field.is_required then
            [DatamodelError.validation
              ("The relation field `" ++ field.name ++ "` uses the scalar fields "
                ++ String.intercalate ", " rel_info.fields
                ++ ". At least one of those fields is optional. Hence the relation field must be optional as well.")
              ast_field.span]
          else [])
      ++ (if all_underlying_fields_are_optional && field.is_required then
            [DatamodelError.validation
              ("The relation field `" ++ field.name ++ "` uses the scalar fields "
                ++ String.intercalate ", " rel_info.fields
                ++ ". All those fields are optional. Hence the relation field must be optional as well.")
              ast_field.span]
          else []))

/-- `Validator::validate_base_fields_for_relation`. -/
def validate_base_fields_for_relation (_datamodel : Datamodel) (ast_model : AstModel) (model : Model) :
    Except String (List DatamodelError) :=
  except_concat_map (base_field_errors ast_model model) model.relation_fields

/-- The per-pair type check of `validate_referenced_fields_for_relation`:
`fields[i]` zipped with `references[i]`, compatibility via
`is_compatible_with` with the native-type fallback through the active
connector. -/
def wrong_type_errors (source : Option Datasource) (model related_model : Model) (span : Span)
    (rel_info : RelationInfo) : List DatamodelError :=
  (rel_info.fields.zip rel_info.references).filterMap (fun pair =>
    match model.find_field pair.1, related_model.find_field pair.2 with
    | some base_field, some referenced_field =>
      if base_field.field_type.is_compatible_with referenced_field.field_type then none
      else
        let fallback_matches :=
          match source with
          | some s =>
            let connector := s.active_connector
            let base_native_type :=
              match base_field.field_type.as_native_type with
              | some p => some p
              | none =>
                (base_field.field_type.as_base).map
                  (fun scalar_type => (scalar_type, connector.default_native_type_for_scalar_type scalar_type))
            let referenced_native_type :=
              match referenced_field.field_type.as_native_type with
              | some p => some p
              | none =>
                (referenced_field.field_type.as_base).map
                  (fun scalar_type => (scalar_type, connector.default_native_type_for_scalar_type scalar_type))
            base_native_type.isSome && base_native_type == referenced_native_type
          | none => false
        if fallback_matches then none
        else
          some (.attribute_validation
            ("The type of the field `" ++ base_field.name ++ "` in the model `" ++ model.name
              ++ "` is not matching the type of the referenced field `" ++ referenced_field.name
              ++ "` in model `" ++ related_model.name ++ "`.")
            RELATION_ATTRIBUTE_NAME span)
    | _, _ => none)

/-- Stable ascending sort on strings (`Vec::sort`). -/
def insert_sorted (s : String) : List String → List String
  | [] => [s]
  | x :: xs => if x < s then x :: insert_sorted s xs else s :: x :: xs

def sort_strings : List String → List String
  | [] => []
  | x :: xs => insert_sorted x (sort_strings xs)

/-- `references_singular_id_field` inside the guarded block: with exactly one
referenced name, look it up as a scalar field of the related model (bare
`unwrap`) and test `is_id`. -/
def references_singular_id_field (related_model : Model) (rel_info : RelationInfo) :
    Except String Bool :=
  if rel_info.references.length == 1 then
    match rel_info.references.head? with
    | some field_name =>
      match related_model.find_scalar_field field_name with
      | some referenced_field => .ok referenced_field.is_id
      | none => .error UNWRAP_PANIC
    | none => .error UNWRAP_PANIC
  else .ok false

/-- The unique-criteria / field-order diagnostics of the guarded block of
`validate_referenced_fields_for_relation`. -/
def unique_criteria_part (source : Option Datasource) (related_model : Model)
    (rel_info : RelationInfo) (span : Span) : List DatamodelError :=
  let strict_relation_field_order :=
    match source with
    | some s => !s.active_connector.allows_relation_fields_in_arbitrary_order
    | none => false
  let references_unique_criteria := related_model.loose_unique_criterias.any (fun criteria =>
    sort_strings (criteria.fields.map (fun f => f.name)) == sort_strings rel_info.references)
  let reference_order_correct :=
    if strict_relation_field_order && rel_info.references.length > 1 then
      related_model.loose_unique_criterias.any (fun criteria =>
        criteria.fields.length == rel_info.references.length
          && (((criteria.fields.map (fun f => f.name)).zip rel_info.references).all
                (fun pair => pair.1 == pair.2)))
    else true
  let must_reference_unique_criteria :=
    match source with
    | some s => !s.combined_connector.supports_relations_over_non_unique_criteria
    | none => true
  if !references_unique_criteria && must_reference_unique_criteria then
    [DatamodelError.validation
      ("The argument `references` must refer to a unique criteria in the related model `"
        ++ related_model.name
        ++ "`. But it is referencing the following fields that are not a unique criteria: "
        ++ String.intercalate ", " rel_info.references)
      span]
  else if !reference_order_correct then
    [DatamodelError.validation
      ("The argument `references` must refer to a unique criteria in the related model `"
        ++ related_model.name
        ++ "` using the same order of fields. Please check the ordering in the following fields: `"
        ++ String.intercalate ", " rel_info.references ++ "`.")
      span]
  else []

/-- The many-to-many diagnostic of the guarded block: both sides list-arity
(via `find_related_field`), the singular-id test failed, and the related model
has a single `@id` field. -/
def many_to_many_part (datamodel : Datamodel) (owner_name : String) (field : RelationField)
    (related_model : Model) (references_singular_id : Bool) (span : Span) : List DatamodelError :=
  let is_many_to_many :=
    match datamodel.find_related_field owner_name field with
    | some related_field => field.is_list && related_field.is_list
    | none => false
  if is_many_to_many && !references_singular_id && related_model.has_single_id_field then
    [DatamodelError.validation
      ("Many to many relations must always reference the id field of the related model. Change the argument `references` to use the id field of the related model `"
        ++ related_model.name
        ++ "`. But it is referencing the following fields that are not the id: "
        ++ String.intercalate ", " field.relation_info.references)
      span]
  else []

/-- The block of `validate_referenced_fields_for_relation` guarded by
`!references.is_empty() && !errors.has_errors()`; the singular-id lookup is
evaluated (and can panic) before any diagnostic is pushed. -/
def referenced_fields_block (source : Option Datasource) (datamodel : Datamodel)
    (model related_model : Model) (field : RelationField) (span : Span) :
    Except String (List DatamodelError) :=
  match references_singular_id_field related_model field.relation_info with
  | .error m => .error m
  | .ok singular_id =>
    .ok (unique_criteria_part source related_model field.relation_info span
      ++ many_to_many_part datamodel model.name field related_model singular_id span)

/-- The `references`-must-exist diagnostic of
`validate_referenced_fields_for_relation`. -/
def references_unknown_part (related_model : Model) (rel_info : RelationInfo) (span : Span) :
    List DatamodelError :=
  let unknown_fields :=
    rel_info.references.filter (fun referenced_field => (related_model.find_field referenced_field).isNone)
  if !unknown_fields.isEmpty then
    [DatamodelError.validation
      ("The argument `references` must refer only to existing fields in the related model `"
        ++ related_model.name ++ "`. The following fields do not exist in the related model: "
        ++ String.intercalate ", " unknown_fields)
      span]
  else []

/-- The `references`-must-be-scalar diagnostic of
`validate_referenced_fields_for_relation`. -/
def references_relation_part (related_model : Model) (rel_info : RelationInfo) (span : Span) :
    List DatamodelError :=
  let referenced_relation_fields :=
    rel_info.references.filter (fun base_field => (related_model.find_relation_field base_field).isSome)
  if !referenced_relation_fields.isEmpty then
    [DatamodelError.validation
      ("The argument `references` must refer only to scalar fields in the related model `"
        ++ related_model.name ++ "`. But it is referencing the following relation fields: "
        ++ String.intercalate ", " referenced_relation_fields)
      span]
  else []

/-- The `fields`/`references` length diagnostic of
`validate_referenced_fields_for_relation`. -/
def references_length_part (rel_info : RelationInfo) (span : Span) : List DatamodelError :=
  if !rel_info.fields.isEmpty && !rel_info.references.isEmpty
      && rel_info.fields.length != rel_info.references.length then
    [DatamodelError.attribute_validation
      "You must specify the same number of fields in `fields` and `references`."
      RELATION_ATTRIBUTE_NAME span]
  else []

/-- One relation field of `Validator::validate_referenced_fields_for_relation`:
`errs` is the function-local bag accumulated over the model's earlier relation
fields; the related model is looked up with `.expect(STATE_ERROR)`; the
type-mismatch diagnostics are appended last, only when the bag is still empty. -/
def ref_field_step (source : Option Datasource) (datamodel : Datamodel) (ast_model : AstModel)
    (model : Model) (errs : List DatamodelError) (field : RelationField) :
    Except String (List DatamodelError) :=
  match ast_model.find_field_opt field.name with
  | none => .error FIND_FIELD_PANIC
  | some ast_field =>
    match datamodel.find_model field.relation_info.«to» with
    | none => .error STATE_ERROR
    | some related_model =>
      let rel_info := field.relation_info
      let fields_with_wrong_type := wrong_type_errors source model related_model ast_field.span rel_info
      let errs1 := errs
        ++ references_unknown_part related_model rel_info ast_field.span
        ++ references_relation_part related_model rel_info ast_field.span
      match (if !rel_info.references.isEmpty && errs1.isEmpty then
              referenced_fields_block source datamodel model related_model field ast_field.span
            else .ok []) with
      | .error m => .error m
      | .ok block_errs =>
        let errs3 := (errs1 ++ block_errs) ++ references_length_part rel_info ast_field.span
        .ok (if !fields_with_wrong_type.isEmpty && errs3.isEmpty then errs3 ++ fields_with_wrong_type
             else errs3)

/-- `Validator::validate_referenced_fields_for_relation`. -/
def validate_referenced_fields_for_relation (source : Option Datasource) (datamodel : Datamodel)
    (ast_model : AstModel) (model : Model) : Except String (List DatamodelError) :=
  except_foldl (ref_field_step source datamodel ast_model model) [] model.relation_fields

/-- One model of the model loop of `Validator::validate`: the id-arity check
pushes straight into the outer bag, the remaining rules fill the per-model bag
which is then absorbed; every `find_model` on the AST is `.expect(STATE_ERROR)`. -/
def validate_model_step (source : Option Datasource) (ast_schema : SchemaAst) (schema : Datamodel)
    (model : Model) : Except String (List DatamodelError) :=
  match id_arity_errors ast_schema model with
  | .error m => .error m
  | .ok id_errs =>
    match expect_state (ast_schema.find_model model.name) with
    | .error m => .error m
    | .ok ast_model =>
      let unique_errs := (validate_model_has_strict_unique_criteria ast_model model).toList
      let name_errs := (validate_model_name ast_model model).toList
      match validate_relations_not_ambiguous ast_schema model with
      | .error m => .error m
      | .ok ambiguity =>
        match validate_field_arities source ast_model model with
        | .error m => .error m
        | .ok arity_errs =>
          match validate_field_types source ast_model model with
          | .error m => .error m
          | .ok type_errs =>
            match validate_field_connector_specific source ast_model model with
            | .error m => .error m
            | .ok field_conn_errs =>
              let model_conn_errs := validate_model_connector_specific source ast_model model
              match validate_enum_default_values schema ast_model model with
              | .error m => .error m
              | .ok enum_default_errs =>
                match validate_auto_increment source ast_model model with
                | .error m => .error m
                | .ok auto_inc_errs =>
                  match validate_base_fields_for_relation schema ast_model model with
                  | .error m => .error m
                  | .ok base_errs =>
                    match validate_referenced_fields_for_relation source schema ast_model model with
                    | .error m => .error m
                    | .ok referenced_errs =>
                      .ok (id_errs ++ unique_errs ++ name_errs ++ ambiguity.toList
                        ++ arity_errs ++ type_errs ++ field_conn_errs ++ model_conn_errs
                        ++ enum_default_errs ++ auto_inc_errs ++ base_errs ++ referenced_errs)

/-- One enum of the enum loop of `Validator::validate`. -/
def validate_enum_step (ast_schema : SchemaAst) (declared_enum : Enum) :
    Except String (List DatamodelError) :=
  match expect_state (ast_schema.find_enum declared_enum.name) with
  | .error m => .error m
  | .ok ast_enum => .ok (validate_enum_name ast_enum declared_enum).toList

/-- Every diagnostic accumulated by `Validator::validate`, in insertion order:
name errors, index-name errors, the per-model bags (each prefixed by the
id-arity errors pushed directly to the outer bag), then the enum bags. -/
def collected_errors (source : Option Datasource) (ast_schema : SchemaAst) (schema : Datamodel) :
    Except String (List DatamodelError) :=
  let name_errs := validate_names ast_schema
  match validate_names_for_indexes source ast_schema schema with
  | .error m => .error m
  | .ok index_errs =>
    match except_concat_map (validate_model_step source ast_schema schema) schema.models with
    | .error m => .error m
    | .ok model_errs =>
      match except_concat_map (validate_enum_step ast_schema) schema.enums with
      | .error m => .error m
      | .ok enum_errs => .ok (name_errs ++ index_errs ++ model_errs ++ enum_errs)

/-- `Validator::validate`: `Ok(())` when the accumulated bag holds no error,
`Err(bag)` otherwise; panics surface as the outer `Except.error`. -/
def validate (source : Option Datasource) (ast_schema : SchemaAst) (schema : Datamodel) :
    Except String (Except (List DatamodelError) Unit) :=
  match collected_errors source ast_schema schema with
  | .error m => .error m
  | .ok all_errors =>
    .ok (if all_errors.isEmpty then Except.ok () else Except.error all_errors)

/-- The field-span lookup at the top of `validate_relation_arguments_bla`
(tolerant: `Span::empty` when the AST field is missing). -/
def bla_field_span (ast_model : AstModel) (field_name : String) : Span :=
  match ast_model.fields.find? (fun ast_field => ast_field.name.name == field_name) with
  | some ast_field => ast_field.span
  | none => Span.empty

/-- One relation field of `Validator::validate_relation_arguments_bla`
(pass 2); `errs` is the function-local bag over the model's earlier relation
fields — the `!errors.has_errors()` gates of the one-to-one block observe it. -/
def bla_field_step (_source : Option Datasource) (datamodel : Datamodel) (ast_model : AstModel)
    (model : Model) (errs : List DatamodelError) (field : RelationField) :
    Except String (List DatamodelError) :=
  let field_span := bla_field_span ast_model field.name
  let rel_info := field.relation_info
  match datamodel.find_model rel_info.«to» with
  | none => .error STATE_ERROR
  | some related_model =>
    match datamodel.find_related_field model.name field with
    | none =>
      .ok (errs ++ [DatamodelError.field_validation
        ("The relation field `" ++ field.name ++ "` on Model `" ++ model.name
          ++ "` is missing an opposite relation field on the model `" ++ related_model.name
          ++ "`. Either run `prisma format` or add it manually.")
        model.name field.name field_span])
    | some related_field =>
      let related_field_rel_info := related_field.relation_info
      let ignore_part :=
        if related_model.is_ignored && !field.is_ignored && !model.is_ignored then
          [DatamodelError.attribute_validation
            ("The relation field `" ++ field.name ++ "` on Model `" ++ model.name
              ++ "` must specify the `@ignore` attribute, because the model " ++ related_model.name
              ++ " it is pointing to is marked ignored.")
            "ignore" field_span]
        else []
      let one_to_many_part :=
        if field.is_singular && related_field.is_list then
          (if rel_info.fields.isEmpty then
            [DatamodelError.attribute_validation
              ("The relation field `" ++ field.name ++ "` on Model `" ++ model.name
                ++ "` must specify the `fields` argument in the " ++ RELATION_ATTRIBUTE_NAME_WITH_AT
                ++ " attribute. " ++ PRISMA_FORMAT_HINT)
              RELATION_ATTRIBUTE_NAME field_span]
          else [])
          ++ (if rel_info.references.isEmpty then
            [DatamodelError.attribute_validation
              ("The relation field `" ++ field.name ++ "` on Model `" ++ model.name
                ++ "` must specify the `references` argument in the " ++ RELATION_ATTRIBUTE_NAME_WITH_AT
                ++ " attribute.")
              RELATION_ATTRIBUTE_NAME field_span]
          else [])
        else []
      let wrong_side_part :=
        if field.is_list && !related_field.is_list
            && (!rel_info.fields.isEmpty || !rel_info.references.isEmpty) then
          [DatamodelError.attribute_validation
            ("The relation field `" ++ field.name ++ "` on Model `" ++ model.name
              ++ "` must not specify the `fields` or `references` argument in the "
              ++ RELATION_ATTRIBUTE_NAME_WITH_AT ++ " attribute. You must only specify it on the opposite field `"
              ++ related_field.name ++ "` on model `" ++ related_model.name ++ "`.")
            RELATION_ATTRIBUTE_NAME field_span]
        else []
      let one_to_one := field.is_singular && related_field.is_singular
      let fields_missing_part :=
        if one_to_one && rel_info.fields.isEmpty && related_field_rel_info.fields.isEmpty then
          [DatamodelError.attribute_validation
            ("The relation fields `" ++ field.name ++ "` on Model `" ++ model.name ++ "` and `"
              ++ related_field.name ++ "` on Model `" ++ related_model.name
              ++ "` do not provide the `fields` argument in the " ++ RELATION_ATTRIBUTE_NAME_WITH_AT
              ++ " attribute. You have to provide it on one of the two fields.")
            RELATION_ATTRIBUTE_NAME field_span]
        else []
      let references_missing_part :=
        if one_to_one && rel_info.references.isEmpty && related_field_rel_info.references.isEmpty then
          [DatamodelError.attribute_validation
            ("The relation fields `" ++ field.name ++ "` on Model `" ++ model.name ++ "` and `"
              ++ related_field.name ++ "` on Model `" ++ related_model.name
              ++ "` do not provide the `references` argument in the " ++ RELATION_ATTRIBUTE_NAME_WITH_AT
              ++ " attribute. You have to provide it on one of the two fields.")
            RELATION_ATTRIBUTE_NAME field_span]
        else []
      let references_both_part :=
        if one_to_one && !rel_info.references.isEmpty && !related_field_rel_info.references.isEmpty then
          [DatamodelError.attribute_validation
            ("The relation fields `" ++ field.name ++ "` on Model `" ++ model.name ++ "` and `"
              ++ related_field.name ++ "` on Model `" ++ related_model.name
              ++ "` both provide the `references` argument in the " ++ RELATION_ATTRIBUTE_NAME_WITH_AT
              ++ " attribute. You have to provide it only on one of the two fields.")
            RELATION_ATTRIBUTE_NAME field_span]
        else []
      let fields_both_part :=
        if one_to_one && !rel_info.fields.isEmpty && !related_field_rel_info.fields.isEmpty then
          [DatamodelError.attribute_validation
            ("The relation fields `" ++ field.name ++ "` on Model `" ++ model.name ++ "` and `"
              ++ related_field.name ++ "` on Model `" ++ related_model.name
              ++ "` both provide the `fields` argument in the " ++ RELATION_ATTRIBUTE_NAME_WITH_AT
              ++ " attribute. You have to provide it only on one of the two fields.")
            RELATION_ATTRIBUTE_NAME field_span]
        else []
      let errs_a := errs ++ ignore_part ++ one_to_many_part ++ wrong_side_part
        ++ fields_missing_part ++ references_missing_part ++ references_both_part ++ fields_both_part
      let cross_part :=
        if one_to_one && errs_a.isEmpty then
          (if !rel_info.fields.isEmpty && !related_field_rel_info.references.isEmpty then
            [DatamodelError.attribute_validation
              ("The relation field `" ++ field.name ++ "` on Model `" ++ model.name
                ++ "` provides the `fields` argument in the " ++ RELATION_ATTRIBUTE_NAME_WITH_AT
                ++ " attribute. And the related field `" ++ related_field.name ++ "` on Model `"
                ++ related_model.name
                ++ "` provides the `references` argument. You must provide both arguments on the same side.")
              RELATION_ATTRIBUTE_NAME field_span]
          else [])
          ++ (if !rel_info.references.isEmpty && !related_field_rel_info.fields.isEmpty then
            [DatamodelError.attribute_validation
              ("The relation field `" ++ field.name ++ "` on Model `" ++ model.name
                ++ "` provides the `references` argument in the " ++ RELATION_ATTRIBUTE_NAME_WITH_AT
                ++ " attribute. And the related field `" ++ related_field.name ++ "` on Model `"
                ++ related_model.name
                ++ "` provides the `fields` argument. You must provide both arguments on the same side.")
              RELATION_ATTRIBUTE_NAME field_span]
          else [])
        else []
      let errs_b := errs_a ++ cross_part
      let required_part :=
        if one_to_one && errs_b.isEmpty && field.is_required
            && !related_field_rel_info.references.isEmpty then
          [DatamodelError.attribute_validation
            ("The relation field `" ++ field.name ++ "` on Model `" ++ model.name
              ++ "` is required. This is no longer valid because it's not possible to enforce this constraint on the database level. Please change the field type from `"
              ++ related_model.name ++ "` to `" ++ related_model.name ++ "?` to fix this.")
            RELATION_ATTRIBUTE_NAME field_span]
        else []
      let many_to_many_id_part :=
        if field.is_list && related_field.is_list && !related_model.has_single_id_field then
          [DatamodelError.field_validation
            ("The relation field `" ++ field.name ++ "` on Model `" ++ model.name ++ "` references `"
              ++ related_model.name
              ++ "` which does not have an `@id` field. Models without `@id` can not be part of a many to many relation. Use an explicit intermediate Model to represent this relationship.")
            model.name field.name field_span]
        else []
      .ok (errs_b ++ required_part ++ many_to_many_id_part)

/-- `Validator::validate_relation_arguments_bla` (pass 2, per model). -/
def validate_relation_arguments_bla (source : Option Datasource) (datamodel : Datamodel)
    (ast_model : AstModel) (model : Model) : Except String (List DatamodelError) :=
  except_foldl (bla_field_step source datamodel ast_model model) [] model.relation_fields

/-- Every diagnostic accumulated by `Validator::post_standardisation_validate`,
in insertion order. -/
def post_collected_errors (source : Option Datasource) (ast_schema : SchemaAst) (schema : Datamodel) :
    Except String (List DatamodelError) :=
  except_concat_map (fun model =>
    match expect_state (ast_schema.find_model model.name) with
    | .error m => .error m
    | .ok ast_model => validate_relation_arguments_bla source schema ast_model model) schema.models

/-- `Validator::post_standardisation_validate`. -/
def post_standardisation_validate (source : Option Datasource) (ast_schema : SchemaAst)
    (schema : Datamodel) : Except String (Except (List DatamodelError) Unit) :=
  match post_collected_errors source ast_schema schema with
  | .error m => .error m
  | .ok all_errors =>
    .ok (if all_errors.isEmpty then Except.ok () else Except.error all_errors)

/-- C1: `validate` and `post_standardisation_validate` return `Ok(())` exactly
when the pass produced no error diagnostic, and otherwise return `Err` carrying
precisely the accumulated diagnostics in insertion order (`collected_errors`
resp. `post_collected_errors`). -/
theorem claim_C1_result_iff_no_errors :
    ∀ (source : Option Datasource) (ast_schema : SchemaAst) (schema : Datamodel),
      (validate source ast_schema schema = .ok (.ok ())
        ↔ collected_errors source ast_schema schema = .ok [])
      ∧ (∀ bag, validate source ast_schema schema = .ok (.error bag)
        ↔ (collected_errors source ast_schema schema = .ok bag ∧ bag ≠ []))
      ∧ (post_standardisation_validate source ast_schema schema = .ok (.ok ())
        ↔ post_collected_errors source ast_schema schema = .ok [])
      ∧ (∀ bag, post_standardisation_validate source ast_schema schema = .ok (.error bag)
        ↔ (post_collected_errors source ast_schema schema = .ok bag ∧ bag ≠ [])) := by
  intro source ast_schema schema
  refine ⟨?_, ?_, ?_, ?_⟩
  · unfold validate
    cases h : collected_errors source ast_schema schema with
    | error m => simp
    | ok all =>
      by_cases he : all = []
      · subst he
        simp
      · simp [List.isEmpty_iff, he]
        all_goals (intro hbag; subst hbag; exact he)
  · intro bag
    unfold validate
    cases h : collected_errors source ast_schema schema with
    | error m => simp
    | ok all =>
      by_cases he : all = []
      · subst he
        simp
        all_goals (intro hbag; simp [hbag])
      · simp [List.isEmpty_iff, he]
        all_goals (intro hbag; subst hbag; exact he)
  · unfold post_standardisation_validate
    cases h : post_collected_errors source ast_schema schema with
    | error m => simp
    | ok all =>
      by_cases he : all = []
      · subst he
        simp
      · simp [List.isEmpty_iff, he]
        all_goals (intro hbag; subst hbag; exact he)
  · intro bag
    unfold post_standardisation_validate
    cases h : post_collected_errors source ast_schema schema with
    | error m => simp
    | ok all =>
      by_cases he : all = []
      · subst he
        simp
        all_goals (intro hbag; simp [hbag])
      · simp [List.isEmpty_iff, he]
        all_goals (intro hbag; subst hbag; exact he)

/-- C9: both passes are pure — equal inputs (same datasource, same AST, same
DMIR) give identical results: the same `Ok`/`Err` outcome and, on `Err`, the
same diagnostics with the same messages, spans and order. -/
theorem claim_C9_determinism :
    ∀ (source1 source2 : Option Datasource) (ast1 ast2 : SchemaAst) (dm1 dm2 : Datamodel),
      source1 = source2 → ast1 = ast2 → dm1 = dm2 →
      validate source1 ast1 dm1 = validate source2 ast2 dm2
        ∧ post_standardisation_validate source1 ast1 dm1 = post_standardisation_validate source2 ast2 dm2 := by
  intro source1 source2 ast1 ast2 dm1 dm2 hs ha hd
  subst hs
  subst ha
  subst hd
  exact ⟨rfl, rfl⟩

/-- Witness for C9 at a concrete input. -/
theorem claim_C9_determinism_witness :
    validate none ⟨[], []⟩ ⟨[], []⟩ = validate none ⟨[], []⟩ ⟨[], []⟩
      ∧ post_standardisation_validate none ⟨[], []⟩ ⟨[], []⟩
        = post_standardisation_validate none ⟨[], []⟩ ⟨[], []⟩ :=
  claim_C9_determinism none none ⟨[], []⟩ ⟨[], []⟩ ⟨[], []⟩ ⟨[], []⟩ rfl rfl rfl

/-- An ignored model carrying two singular `@id` fields. -/
def c3_model : Model :=
  ⟨"IgnoredTwoIds",
    [.scalar ⟨"a", .base .int, .required, true, false, none⟩,
     .scalar ⟨"b", .base .int, .required, true, false, none⟩],
    [], [], true⟩

def c3_ast_model : AstModel := ⟨⟨"IgnoredTwoIds", ⟨0, 13⟩⟩, [], [], ⟨0, 40⟩⟩

/-- Counterexample to C3: the model is ignored, yet the multiple-`@id` error is
still produced — the `is_ignored` flag only gates the at-least-one-unique-criteria
error, not the two id-criteria errors. -/
theorem claim_C3_counterexample :
    c3_model.is_ignored = true
      ∧ validate_model_has_strict_unique_criteria c3_ast_model c3_model
        = some (.model_validation
            "At most one field must be marked as the id field with the `@id` attribute."
            "IgnoredTwoIds" ⟨0, 40⟩) :=
  ⟨rfl, rfl⟩

/-- C3 as amended: for every model — ignored or not — more than one singular
`@id` field yields the at-most-one-id error, a singular `@id` together with a
composite `@@id` yields the one-id-criteria error; the at-least-one-unique-criteria
error (whose suffix enumerates the loose criteria, each line prefixed `- ` with
field names joined by `, `) is produced exactly for non-ignored models with an
empty strict criterion set, and when the strict set is empty every enumerated
loose criterion indeed fails the all-fields-required test. -/
theorem claim_C3_amended :
    ∀ (ast_model : AstModel) (model : Model),
      (model.singular_id_fields.length > 1 →
        validate_model_has_strict_unique_criteria ast_model model
          = some (.model_validation
              "At most one field must be marked as the id field with the `@id` attribute."
              model.name ast_model.span))
      ∧ (model.singular_id_fields.length = 1 → model.id_fields ≠ [] →
        validate_model_has_strict_unique_criteria ast_model model
          = some (.model_validation
              "Each model must have at most one id criteria. You can't have `@id` and `@@id` at the same time."
              model.name ast_model.span))
      ∧ (¬ model.singular_id_fields.length > 1 →
         ¬ (model.singular_id_fields ≠ [] ∧ model.id_fields ≠ []) →
         model.strict_unique_criterias_disregarding_unsupported = [] →
         model.is_ignored = false →
        validate_model_has_strict_unique_criteria ast_model model
          = some (.model_validation
              ("Each model must have at least one unique criteria that has only required fields. Either mark a single field with `@id`, `@unique` or add a multi field criterion with `@@id([])` or `@@unique([])` to the model."
                ++ (if model.loose_unique_criterias.isEmpty then ""
                    else
                      " The following unique criterias were not considered as they contain fields that are not required:\n"
                      ++ String.intercalate "\n"
                          (model.loose_unique_criterias.map (fun criteria =>
                            "- " ++ String.intercalate ", " (criteria.fields.map (fun f => f.name))))))
              model.name ast_model.span))
      ∧ (model.strict_unique_criterias_disregarding_unsupported = [] →
         ∀ c ∈ model.loose_unique_criterias, ¬ c.fields.all (fun f => f.is_required) = true)
      ∧ (¬ model.singular_id_fields.length > 1 →
         ¬ (model.singular_id_fields ≠ [] ∧ model.id_fields ≠ []) →
         (model.strict_unique_criterias_disregarding_unsupported ≠ [] ∨ model.is_ignored = true) →
        validate_model_has_strict_unique_criteria ast_model model = none) := by
  intro ast_model model
  refine ⟨?_, ?_, ?_, ?_, ?_⟩
  · intro h
    unfold validate_model_has_strict_unique_criteria
    rw [if_pos h]
  · intro h1 h2
    have hlen : ¬ model.singular_id_fields.length > 1 := by omega
    have hne : model.singular_id_fields ≠ [] := by
      intro hnil
      rw [hnil] at h1
      simp at h1
    unfold validate_model_has_strict_unique_criteria
    rw [if_neg hlen, if_pos]
    simp [List.isEmpty_iff, hne, h2]
  · intro h1 h2 h3 h4
    have hcond : ¬ (!model.singular_id_fields.isEmpty && !model.id_fields.isEmpty) = true := by
      simp [List.isEmpty_iff]
      intro ha
      by_contra hb
      exact h2 ⟨ha, hb⟩
    unfold validate_model_has_strict_unique_criteria
    rw [if_neg h1, if_neg hcond, if_pos]
    simp [List.isEmpty_iff, h3, h4]
  · intro hstrict c hc hall
    have hmem : c ∈ model.strict_unique_criterias_disregarding_unsupported := by
      unfold Model.strict_unique_criterias_disregarding_unsupported
      rw [List.mem_filter]
      refine ⟨hc, ?_⟩
      rw [List.all_eq_true] at hall ⊢
      intro f hf
      simp [hall f hf]
    rw [hstrict] at hmem
    exact (List.not_mem_nil c) hmem
  · intro h1 h2 h3
    have hcond : ¬ (!model.singular_id_fields.isEmpty && !model.id_fields.isEmpty) = true := by
      simp [List.isEmpty_iff]
      intro ha
      by_contra hb
      exact h2 ⟨ha, hb⟩
    unfold validate_model_has_strict_unique_criteria
    rw [if_neg h1, if_neg hcond, if_neg]
    simp [List.isEmpty_iff]
    intro hstrict
    rcases h3 with h3 | h3
    · exact absurd hstrict h3
    · simp [h3]

/-- Witness for the amended C3 at concrete inputs: a non-ignored model with a
single optional `@unique` field gets the at-least-one-unique-criteria error
with the `- ` suffix line, and an ignored model with the same shape gets none. -/
theorem claim_C3_amended_witness :
    validate_model_has_strict_unique_criteria ⟨⟨"P", ⟨0, 1⟩⟩, [], [], ⟨0, 9⟩⟩
        ⟨"P", [.scalar ⟨"u", .base .int, .optional, false, true, none⟩], [], [], false⟩
      = some (.model_validation
          ("Each model must have at least one unique criteria that has only required fields. Either mark a single field with `@id`, `@unique` or add a multi field criterion with `@@id([])` or `@@unique([])` to the model."
            ++ " The following unique criterias were not considered as they contain fields that are not required:\n- u")
          "P" ⟨0, 9⟩)
      ∧ validate_model_has_strict_unique_criteria ⟨⟨"Q", ⟨0, 1⟩⟩, [], [], ⟨0, 9⟩⟩
          ⟨"Q", [.scalar ⟨"u", .base .int, .optional, false, true, none⟩], [], [], true⟩
        = none := by
  constructor
  · have h := (claim_C3_amended ⟨⟨"P", ⟨0, 1⟩⟩, [], [], ⟨0, 9⟩⟩
      ⟨"P", [.scalar ⟨"u", .base .int, .optional, false, true, none⟩], [], [], false⟩).2.2.1
      (by decide) (by decide) (by decide) (by decide)
    rw [h]
    rfl
  · exact (claim_C3_amended ⟨⟨"Q", ⟨0, 1⟩⟩, [], [], ⟨0, 9⟩⟩
      ⟨"Q", [.scalar ⟨"u", .base .int, .optional, false, true, none⟩], [], [], true⟩).2.2.2.2
      (by decide) (by decide) (Or.inr rfl)

/-- The stream of named-index occurrences walked by
`validate_names_for_indexes`: models in declaration order, their indices in
order, keeping the index name paired with the span of the first `@@index`
attribute of the model's AST counterpart (models absent from the AST are
skipped). -/
def named_index_occurrences (ast_schema : SchemaAst) (schema : Datamodel) :
    List (String × Option Span) :=
  (schema.models.map (fun model =>
    match ast_schema.find_model model.name with
    | none => []
    | some ast_model =>
      model.indices.filterMap (fun index =>
        index.name.map (fun index_name =>
          (index_name, (ast_model.attributes.find? (fun att => att.is_index)).map (fun a => a.span)))))).flatten

/-- Follows the amended C5's words (reference formulation): walking the
occurrence stream with a seen-name set, every occurrence whose name was
already seen yields one duplicate error at the recorded span (a missing
`@@index` attribute is the `unwrap` panic). Returns the final seen set and
the errors in stream order. -/
def spec_index_duplicate_errors (seen : List String) :
    List (String × Option Span) → Except String (List String × List DatamodelError)
  | [] => .ok (seen, [])
  | occ :: rest =>
    if seen.contains occ.1 then
      match occ.2 with
      | none => .error UNWRAP_PANIC
      | some sp =>
        match spec_index_duplicate_errors seen rest with
        | .error m => .error m
        | .ok st => .ok (st.1, DatamodelError.multiple_indexes_with_same_name occ.1 sp :: st.2)
    else spec_index_duplicate_errors (seen ++ [occ.1]) rest

theorem spec_index_duplicate_errors_append (xs ys : List (String × Option Span)) :
    ∀ seen, spec_index_duplicate_errors seen (xs ++ ys)
      = match spec_index_duplicate_errors seen xs with
        | .error m => .error m
        | .ok st =>
          match spec_index_duplicate_errors st.1 ys with
          | .error m => .error m
          | .ok st2 => .ok (st2.1, st.2 ++ st2.2) := by
  induction xs with
  | nil =>
    intro seen
    simp only [List.nil_append, spec_index_duplicate_errors]
    cases spec_index_duplicate_errors seen ys with
    | error m => rfl
    | ok st => rfl
  | cons occ rest ih =>
    intro seen
    simp only [List.cons_append, spec_index_duplicate_errors]
    by_cases hc : seen.contains occ.1 = true
    · rw [if_pos hc, if_pos hc]
      cases hsp : occ.2 with
      | none => rfl
      | some sp =>
        try dsimp only
        simp only [List.append_eq]
        rw [ih seen]
        cases h1 : spec_index_duplicate_errors seen rest with
        | error m => rfl
        | ok st =>
          try dsimp only
          cases h2 : spec_index_duplicate_errors st.1 ys with
          | error m => rfl
          | ok st2 => simp
    · rw [if_neg hc, if_neg hc]
      exact ih (seen ++ [occ.1])

theorem index_inner_fold_eq_spec (ast_model : AstModel) (idxs : List IndexDefinition) :
    ∀ (seen : List String) (errs : List DatamodelError),
      except_foldl (index_names_step false ast_model) (seen, errs) idxs
        = match spec_index_duplicate_errors seen
            (idxs.filterMap (fun index =>
              index.name.map (fun index_name =>
                (index_name, (ast_model.attributes.find? (fun att => att.is_index)).map (fun a => a.span))))) with
          | .error m => .error m
          | .ok st => .ok (st.1, errs ++ st.2) := by
  induction idxs with
  | nil =>
    intro seen errs
    simp [except_foldl, spec_index_duplicate_errors]
  | cons index rest ih =>
    intro seen errs
    simp only [except_foldl, index_names_step, List.filterMap_cons]
    cases hnm : index.name with
    | none =>
      simp only [Option.map_none', Option.map_none]
      exact ih seen errs
    | some index_name =>
      simp only [Option.map_some', Option.map_some]
      by_cases hc : seen.contains index_name = true
      · have hmem : index_name ∈ seen := by simpa using hc
        rw [if_pos (show (seen.contains index_name && !false) = true by simp [hmem])]
        cases hfind : ast_model.attributes.find? (fun att => att.is_index) with
        | none =>
          simp [hfind, spec_index_duplicate_errors, hc, hmem]
        | some ast_index =>
          simp only [hfind, Option.map_some', Option.map_some]
          have hins : insert_name index_name seen = seen := by
            unfold insert_name
            rw [if_pos hc]
          rw [hins,
            ih seen (errs ++ [DatamodelError.multiple_indexes_with_same_name index_name ast_index.span])]
          simp only [hfind, Option.map_some', Option.map_some, spec_index_duplicate_errors]
          try dsimp only
          rw [if_pos hc]
          cases hrest : spec_index_duplicate_errors seen
              (rest.filterMap (fun index =>
                index.name.map (fun index_name => (index_name, some ast_index.span)))) with
          | error m =>
            try simp only [hrest]
          | ok st =>
            try simp only [hrest]
            try simp
      · have hmem : index_name ∉ seen := by simpa using hc
        rw [if_neg (show ¬ (seen.contains index_name && !false) = true by simp [hmem])]
        have hins : insert_name index_name seen = seen ++ [index_name] := by
          unfold insert_name
          simp [hmem]
        rw [hins]
        simp only [spec_index_duplicate_errors]
        try dsimp only
        rw [if_neg hc]
        exact ih (seen ++ [index_name]) errs

theorem index_outer_fold_eq_spec (ast_schema : SchemaAst) (models : List Model) :
    ∀ (seen : List String) (errs : List DatamodelError),
      except_foldl (fun st model =>
          match ast_schema.find_model model.name with
          | none => .ok st
          | some ast_model => except_foldl (index_names_step false ast_model) st model.indices)
        (seen, errs) models
      = match spec_index_duplicate_errors seen
          ((models.map (fun model =>
            match ast_schema.find_model model.name with
            | none => []
            | some ast_model =>
              model.indices.filterMap (fun index =>
                index.name.map (fun index_name =>
                  (index_name, (ast_model.attributes.find? (fun att => att.is_index)).map (fun a => a.span)))))).flatten) with
        | .error m => .error m
        | .ok st => .ok (st.1, errs ++ st.2) := by
  induction models with
  | nil =>
    intro seen errs
    simp [except_foldl, spec_index_duplicate_errors]
  | cons model rest ih =>
    intro seen errs
    simp only [except_foldl, List.map_cons, List.flatten_cons]
    cases hfm : ast_schema.find_model model.name with
    | none =>
      try dsimp only
      simp only [List.nil_append]
      exact ih seen errs
    | some ast_model =>
      try dsimp only
      rw [index_inner_fold_eq_spec, spec_index_duplicate_errors_append]
      cases h1 : spec_index_duplicate_errors seen
          (model.indices.filterMap (fun index =>
            index.name.map (fun index_name =>
              (index_name, (ast_model.attributes.find? (fun att => att.is_index)).map (fun a => a.span))))) with
      | error m => rfl
      | ok st =>
        try dsimp only
        rw [ih st.1 (errs ++ st.2)]
        cases h2 : spec_index_duplicate_errors st.1
            ((rest.map (fun model =>
              match ast_schema.find_model model.name with
              | none => []
              | some ast_model =>
                model.indices.filterMap (fun index =>
                  index.name.map (fun index_name =>
                    (index_name, (ast_model.attributes.find? (fun att => att.is_index)).map (fun a => a.span)))))).flatten) with
        | error m => rfl
        | ok st2 => simp

/-- C5 as amended: with the `supports_multiple_indexes_with_same_name`
capability false (in particular with no datasource), one error is emitted per
named index whose name was already seen across all models in order, attributed
to the span of the *first* `@@index` attribute of the AST model containing the
later-encountered duplicate (not the duplicate's own attribute). -/
theorem claim_C5_amended :
    ∀ (source : Option Datasource) (ast_schema : SchemaAst) (schema : Datamodel),
      multiple_indexes_supported source = false →
      validate_names_for_indexes source ast_schema schema
        = match spec_index_duplicate_errors [] (named_index_occurrences ast_schema schema) with
          | .error m => .error m
          | .ok st => .ok st.2 := by
  intro source ast_schema schema hsup
  unfold validate_names_for_indexes named_index_occurrences
  rw [hsup, index_outer_fold_eq_spec]
  cases h : spec_index_duplicate_errors []
      ((schema.models.map (fun model =>
        match ast_schema.find_model model.name with
        | none => []
        | some ast_model =>
          model.indices.filterMap (fun index =>
            index.name.map (fun index_name =>
              (index_name, (ast_model.attributes.find? (fun att => att.is_index)).map (fun a => a.span)))))).flatten) with
  | error m => rfl
  | ok st => simp

/-- Witness for the amended C5 at a concrete input. -/
theorem claim_C5_amended_witness :
    validate_names_for_indexes none
        ⟨[⟨⟨"M", ⟨0, 1⟩⟩, [], [⟨⟨"index", ⟨10, 12⟩⟩, ⟨10, 20⟩⟩, ⟨⟨"index", ⟨30, 32⟩⟩, ⟨30, 40⟩⟩], ⟨0, 50⟩⟩], []⟩
        ⟨[⟨"M", [], [], [⟨some "x", ["f"], .normal⟩, ⟨some "x", ["g"], .normal⟩], false⟩], []⟩
      = match spec_index_duplicate_errors []
          (named_index_occurrences
            ⟨[⟨⟨"M", ⟨0, 1⟩⟩, [], [⟨⟨"index", ⟨10, 12⟩⟩, ⟨10, 20⟩⟩, ⟨⟨"index", ⟨30, 32⟩⟩, ⟨30, 40⟩⟩], ⟨0, 50⟩⟩], []⟩
            ⟨[⟨"M", [], [], [⟨some "x", ["f"], .normal⟩, ⟨some "x", ["g"], .normal⟩], false⟩], []⟩) with
        | .error m => .error m
        | .ok st => .ok st.2 :=
  claim_C5_amended none
    ⟨[⟨⟨"M", ⟨0, 1⟩⟩, [], [⟨⟨"index", ⟨10, 12⟩⟩, ⟨10, 20⟩⟩, ⟨⟨"index", ⟨30, 32⟩⟩, ⟨30, 40⟩⟩], ⟨0, 50⟩⟩], []⟩
    ⟨[⟨"M", [], [], [⟨some "x", ["f"], .normal⟩, ⟨some "x", ["g"], .normal⟩], false⟩], []⟩
    rfl

/-- A model with two `@@index` attributes in the AST and two same-named
indexes in the DMIR. -/
def c5_ast : SchemaAst :=
  ⟨[⟨⟨"N", ⟨0, 1⟩⟩, [], [⟨⟨"index", ⟨10, 12⟩⟩, ⟨10, 20⟩⟩, ⟨⟨"index", ⟨30, 32⟩⟩, ⟨30, 40⟩⟩], ⟨0, 50⟩⟩], []⟩

def c5_schema : Datamodel :=
  ⟨[⟨"N", [], [], [⟨some "dup", ["f"], .normal⟩, ⟨some "dup", ["g"], .normal⟩], false⟩], []⟩

/-- Counterexample to C5: the duplicate of index `dup` is the second index,
whose `@@index` attribute spans `(30, 40)`, yet the single emitted error is
attributed to `(10, 20)` — the span of the model's *first* `@@index`
attribute, not the second duplicate's. -/
theorem claim_C5_counterexample :
    validate_names_for_indexes none c5_ast c5_schema
      = .ok [.multiple_indexes_with_same_name "dup" ⟨10, 20⟩]
      ∧ (⟨10, 20⟩ : Span) ≠ ⟨30, 40⟩ := by
  constructor
  · rfl
  · decide

theorem except_concat_map_mem_of_ok {α β : Type} (f : α → Except String (List β)) :
    ∀ (l : List α) (es : List β), except_concat_map f l = .ok es →
      ∀ x ∈ l, ∃ ex, f x = .ok ex ∧ ∀ e ∈ ex, e ∈ es := by
  intro l
  induction l with
  | nil =>
    intro es h x hx
    exact absurd hx (List.not_mem_nil x)
  | cons a rest ih =>
    intro es h x hx
    simp only [except_concat_map] at h
    cases hfa : f a with
    | error m => rw [hfa] at h; exact absurd h (by simp)
    | ok ha =>
      rw [hfa] at h
      cases hrec : except_concat_map f rest with
      | error m => rw [hrec] at h; exact absurd h (by simp)
      | ok ht =>
        rw [hrec] at h
        have hes : es = ha ++ ht := by
          cases h
          rfl
        rcases List.mem_cons.mp hx with hxa | hxr
        · subst hxa
          exact ⟨ha, hfa, fun e he => by
            rw [hes]
            exact List.mem_append_left ht he⟩
        · rcases ih ht hrec x hxr with ⟨ex, hex, hsub⟩
          exact ⟨ex, hex, fun e he => by
            rw [hes]
            exact List.mem_append_right ha (hsub e he)⟩

/-- C10: with no datasource configured the validator behaves as a connector
that supports neither scalar lists nor Json — every list-arity scalar field
yields the scalar-list error and every Json-typed scalar field yields the
Json error, whenever the pass completes. -/
theorem claim_C10_no_datasource_rejects_lists_and_json :
    ∀ (source : Option Datasource) (ast_model : AstModel) (model : Model),
      source = none →
      (∀ es, validate_field_arities source ast_model model = .ok es →
        ∀ f ∈ model.scalar_fields, f.is_list = true →
          ∃ sp, DatamodelError.scalar_list_fields_are_not_supported model.name f.name sp ∈ es)
      ∧ (∀ es, validate_field_types source ast_model model = .ok es →
        ∀ f ∈ model.scalar_fields, f.field_type.scalar_type = some .json →
          ∃ sp, DatamodelError.field_validation
            ("Field `" ++ f.name ++ "` in model `" ++ model.name
              ++ "` can't be of type Json. The current connector does not support the Json type.")
            model.name f.name sp ∈ es) := by
  intro source ast_model model hsrc
  subst hsrc
  constructor
  · intro es h f hf hlist
    unfold validate_field_arities at h
    rcases except_concat_map_mem_of_ok _ _ _ h f hf with ⟨ex, hex, hsub⟩
    rw [if_pos (show (f.is_list && !false) = true by simp [hlist])] at hex
    cases hfind : ast_model.find_field_opt f.name with
    | none => rw [hfind] at hex; exact absurd hex (by simp)
    | some af =>
      rw [hfind] at hex
      have : DatamodelError.scalar_list_fields_are_not_supported model.name f.name af.span ∈ ex := by
        cases hex
        exact List.mem_singleton.mpr rfl
      exact ⟨af.span, hsub _ this⟩
  · intro es h f hf hjson
    unfold validate_field_types at h
    rcases except_concat_map_mem_of_ok _ _ _ h f hf with ⟨ex, hex, hsub⟩
    rw [hjson] at hex
    simp only [Bool.not_false, if_true] at hex
    cases hfind : ast_model.find_field_opt f.name with
    | none => rw [hfind] at hex; exact absurd hex (by simp)
    | some af =>
      rw [hfind] at hex
      have : DatamodelError.field_validation
          ("Field `" ++ f.name ++ "` in model `" ++ model.name
            ++ "` can't be of type Json. The current connector does not support the Json type.")
          model.name f.name af.span ∈ ex := by
        cases hex
        exact List.mem_singleton.mpr rfl
      exact ⟨af.span, hsub _ this⟩

/-- A model with a scalar list field and a Json field, no datasource. -/
def c10_model : Model :=
  ⟨"W", [.scalar ⟨"tags", .base .string, .list, false, false, none⟩,
         .scalar ⟨"meta", .base .json, .required, false, false, none⟩],
    [], [], false⟩

def c10_ast_model : AstModel :=
  ⟨⟨"W", ⟨0, 1⟩⟩,
    [⟨⟨"tags", ⟨2, 3⟩⟩, [], ⟨2, 5⟩⟩, ⟨⟨"meta", ⟨6, 7⟩⟩, [], ⟨6, 9⟩⟩], [], ⟨0, 20⟩⟩

/-- Witness for C10 at a concrete input. -/
theorem claim_C10_witness :
    (∃ sp, DatamodelError.scalar_list_fields_are_not_supported "W" "tags" sp
      ∈ [DatamodelError.scalar_list_fields_are_not_supported "W" "tags" ⟨2, 5⟩])
    ∧ (∃ sp, DatamodelError.field_validation
        "Field `meta` in model `W` can't be of type Json. The current connector does not support the Json type."
        "W" "meta" sp
      ∈ [DatamodelError.field_validation
          "Field `meta` in model `W` can't be of type Json. The current connector does not support the Json type."
          "W" "meta" ⟨6, 9⟩]) := by
  constructor
  · exact (claim_C10_no_datasource_rejects_lists_and_json none c10_ast_model c10_model rfl).1
      [DatamodelError.scalar_list_fields_are_not_supported "W" "tags" ⟨2, 5⟩] rfl
      ⟨"tags", .base .string, .list, false, false, none⟩ (by decide) rfl
  · exact (claim_C10_no_datasource_rejects_lists_and_json none c10_ast_model c10_model rfl).2
      [DatamodelError.field_validation
        "Field `meta` in model `W` can't be of type Json. The current connector does not support the Json type."
        "W" "meta" ⟨6, 9⟩] rfl
      ⟨"meta", .base .json, .required, false, false, none⟩ (by decide) rfl

/-- C4: for a required relation field, a base-fields entry resolving to an
optional scalar of the owning model forces the at-least-one-optional error;
when the list is non-empty and every entry resolves to an optional scalar the
all-optional error is also emitted; an empty `fields` list disables the
all-optional check (indeed the whole rule emits nothing for that field). -/
theorem claim_C4_base_fields_optionality :
    ∀ (ast_model : AstModel) (model : Model) (field : RelationField) (af : AstField),
      ast_model.find_field_opt field.name = some af →
      (field.is_required = true →
        (∃ n ∈ field.relation_info.fields, ∃ sf, model.find_scalar_field n = some sf ∧ sf.is_optional = true) →
        ∀ es, base_field_errors ast_model model field = .ok es →
          DatamodelError.validation
            ("The relation field `" ++ field.name ++ "` uses the scalar fields "
              ++ String.intercalate ", " field.relation_info.fields
              ++ ". At least one of those fields is optional. Hence the relation field must be optional as well.")
            af.span ∈ es)
      ∧ (field.is_required = true → field.relation_info.fields ≠ [] →
        (∀ n ∈ field.relation_info.fields, ∃ sf, model.find_scalar_field n = some sf ∧ sf.is_optional = true) →
        ∀ es, base_field_errors ast_model model field = .ok es →
          DatamodelError.validation
            ("The relation field `" ++ field.name ++ "` uses the scalar fields "
              ++ String.intercalate ", " field.relation_info.fields
              ++ ". All those fields are optional. Hence the relation field must be optional as well.")
            af.span ∈ es)
      ∧ (field.relation_info.fields = [] →
          base_field_errors ast_model model field = .ok []) := by
  intro ast_model model field af hfind
  refine ⟨?_, ?_, ?_⟩
  · intro hreq hex es hok
    unfold base_field_errors at hok
    rw [hfind] at hok
    rcases hex with ⟨n, hn, sf, hsf, hopt⟩
    have harity : sf.arity = .optional := by
      have := hopt
      unfold ScalarField.is_optional at this
      exact beq_iff_eq.mp this
    have hnotreq : (!sf.is_required) = true := by
      unfold ScalarField.is_required
      rw [harity]
      rfl
    have hany : ((field.relation_info.fields.filterMap
        (fun base_field => model.find_scalar_field base_field)).any (fun f => !f.is_required)) = true := by
      rw [List.any_eq_true]
      exact ⟨sf, List.mem_filterMap.mpr ⟨n, hn, hsf⟩, hnotreq⟩
    simp only [hany, hreq, Bool.true_and, Bool.and_self, if_true] at hok
    simp only [Except.ok.injEq] at hok
    subst hok
    simp [List.mem_append]
  · intro hreq hne hall es hok
    unfold base_field_errors at hok
    rw [hfind] at hok
    have hallb : (field.relation_info.fields.all (fun base_field =>
        match model.find_scalar_field base_field with
        | some f => f.is_optional
        | none => false)) = true := by
      rw [List.all_eq_true]
      intro n hn
      rcases hall n hn with ⟨sf, hsf, hopt⟩
      rw [hsf]
      exact hopt
    have hnemp : (!field.relation_info.fields.isEmpty) = true := by
      simp [List.isEmpty_iff, hne]
    simp only [hallb, hnemp, hreq, Bool.true_and, Bool.and_self, if_true] at hok
    simp only [Except.ok.injEq] at hok
    subst hok
    simp [List.mem_append]
  · intro hempty
    unfold base_field_errors
    rw [hfind]
    simp [hempty]

/-- A required relation field over two optional base scalars, and one with an
empty base-fields list. -/
def c4_model : Model :=
  ⟨"M4",
    [.scalar ⟨"u1", .base .int, .optional, false, false, none⟩,
     .scalar ⟨"u2", .base .int, .optional, false, false, none⟩,
     .relation ⟨"rel", .required, ⟨"T", "", ["u1", "u2"], ["x", "y"]⟩, false⟩,
     .relation ⟨"rele", .required, ⟨"T", "", [], []⟩, false⟩],
    [], [], false⟩

def c4_ast_model : AstModel :=
  ⟨⟨"M4", ⟨0, 2⟩⟩,
    [⟨⟨"u1", ⟨3, 4⟩⟩, [], ⟨3, 5⟩⟩, ⟨⟨"u2", ⟨6, 7⟩⟩, [], ⟨6, 8⟩⟩,
     ⟨⟨"rel", ⟨10, 13⟩⟩, [], ⟨10, 20⟩⟩, ⟨⟨"rele", ⟨30, 34⟩⟩, [], ⟨30, 40⟩⟩],
    [], ⟨0, 50⟩⟩

/-- Witness for C4 at a concrete input. -/
theorem claim_C4_witness :
    DatamodelError.validation
        "The relation field `rel` uses the scalar fields u1, u2. At least one of those fields is optional. Hence the relation field must be optional as well."
        ⟨10, 20⟩
      ∈ [DatamodelError.validation
          "The relation field `rel` uses the scalar fields u1, u2. At least one of those fields is optional. Hence the relation field must be optional as well."
          ⟨10, 20⟩,
         DatamodelError.validation
          "The relation field `rel` uses the scalar fields u1, u2. All those fields are optional. Hence the relation field must be optional as well."
          ⟨10, 20⟩]
    ∧ DatamodelError.validation
        "The relation field `rel` uses the scalar fields u1, u2. All those fields are optional. Hence the relation field must be optional as well."
        ⟨10, 20⟩
      ∈ [DatamodelError.validation
          "The relation field `rel` uses the scalar fields u1, u2. At least one of those fields is optional. Hence the relation field must be optional as well."
          ⟨10, 20⟩,
         DatamodelError.validation
          "The relation field `rel` uses the scalar fields u1, u2. All those fields are optional. Hence the relation field must be optional as well."
          ⟨10, 20⟩]
    ∧ base_field_errors c4_ast_model c4_model ⟨"rele", .required, ⟨"T", "", [], []⟩, false⟩ = .ok [] := by
  refine ⟨?_, ?_, ?_⟩
  · exact (claim_C4_base_fields_optionality c4_ast_model c4_model
      ⟨"rel", .required, ⟨"T", "", ["u1", "u2"], ["x", "y"]⟩, false⟩ ⟨⟨"rel", ⟨10, 13⟩⟩, [], ⟨10, 20⟩⟩
      rfl).1 rfl
      ⟨"u1", by decide, ⟨"u1", .base .int, .optional, false, false, none⟩, rfl, rfl⟩
      _ rfl
  · exact (claim_C4_base_fields_optionality c4_ast_model c4_model
      ⟨"rel", .required, ⟨"T", "", ["u1", "u2"], ["x", "y"]⟩, false⟩ ⟨⟨"rel", ⟨10, 13⟩⟩, [], ⟨10, 20⟩⟩
      rfl).2.1 rfl (by decide)
      (by
        intro n hn
        rcases List.mem_pair.mp hn with h | h
        · exact ⟨⟨"u1", .base .int, .optional, false, false, none⟩, by rw [h]; rfl, rfl⟩
        · exact ⟨⟨"u2", .base .int, .optional, false, false, none⟩, by rw [h]; rfl, rfl⟩)
      _ rfl
  · exact (claim_C4_base_fields_optionality c4_ast_model c4_model
      ⟨"rele", .required, ⟨"T", "", [], []⟩, false⟩ ⟨⟨"rele", ⟨30, 34⟩⟩, [], ⟨30, 40⟩⟩
      rfl).2.2 rfl

/-- C2 as amended: the per-pair type-mismatch diagnostics of a relation field
are appended exactly when the rule's function-local bag is still empty at that
point — when neither any earlier relation field of the same model nor this
field's own checks produced an error. The four parts cover every non-panicking
run: (1) a non-empty bag after the reference-existence checks — whether from
earlier relation fields or from this field's own unknown/relation-reference
errors — suppresses the mismatches; (2) errors from the guarded
unique-criteria/many-to-many block suppress them; (3) the length-mismatch
error suppresses them; (4) with everything clean the output is exactly the
mismatch list. -/
theorem claim_C2_amended :
    ∀ (source : Option Datasource) (datamodel : Datamodel) (ast_model : AstModel) (model : Model)
      (errs : List DatamodelError) (field : RelationField) (af : AstField) (related_model : Model),
      ast_model.find_field_opt field.name = some af →
      datamodel.find_model field.relation_info.«to» = some related_model →
      ((errs
          ++ references_unknown_part related_model field.relation_info af.span
          ++ references_relation_part related_model field.relation_info af.span ≠ [] →
        ref_field_step source datamodel ast_model model errs field
          = .ok ((errs
              ++ references_unknown_part related_model field.relation_info af.span
              ++ references_relation_part related_model field.relation_info af.span)
              ++ references_length_part field.relation_info af.span))
      ∧ (∀ bes,
        errs
          ++ references_unknown_part related_model field.relation_info af.span
          ++ references_relation_part related_model field.relation_info af.span = [] →
        field.relation_info.references.isEmpty = false →
        referenced_fields_block source datamodel model related_model field af.span = .ok bes →
        bes ≠ [] →
        ref_field_step source datamodel ast_model model errs field
          = .ok (bes ++ references_length_part field.relation_info af.span))
      ∧ (errs
          ++ references_unknown_part related_model field.relation_info af.span
          ++ references_relation_part related_model field.relation_info af.span = [] →
        (field.relation_info.references.isEmpty = true ∨
          referenced_fields_block source datamodel model related_model field af.span = .ok []) →
        references_length_part field.relation_info af.span ≠ [] →
        ref_field_step source datamodel ast_model model errs field
          = .ok (references_length_part field.relation_info af.span))
      ∧ (errs = [] →
        references_unknown_part related_model field.relation_info af.span = [] →
        references_relation_part related_model field.relation_info af.span = [] →
        references_length_part field.relation_info af.span = [] →
        (field.relation_info.references.isEmpty = true ∨
          referenced_fields_block source datamodel model related_model field af.span = .ok []) →
        ref_field_step source datamodel ast_model model errs field
          = .ok (wrong_type_errors source model related_model af.span field.relation_info))) := by
  intro source datamodel ast_model model errs field af related_model hfind hrm
  refine ⟨?_, ?_, ?_, ?_⟩
  · intro hne1
    unfold ref_field_step
    simp only [hfind, hrm]
    cases h1 : errs
        ++ references_unknown_part related_model field.relation_info af.span
        ++ references_relation_part related_model field.relation_info af.span with
    | nil => exact absurd h1 hne1
    | cons e et =>
      try rw [h1]
      simp [List.isEmpty_cons]
  · intro bes h1 hrefs hblk hbes
    cases bes with
    | nil => exact absurd rfl hbes
    | cons b bt =>
      unfold ref_field_step
      simp only [hfind, hrm, h1, hrefs, hblk]
      simp [List.isEmpty_cons]
  · intro h1 hcond hlp
    cases hlpc : references_length_part field.relation_info af.span with
    | nil => exact absurd hlpc hlp
    | cons l lt =>
      unfold ref_field_step
      simp only [hfind, hrm, h1]
      rcases hcond with hrefs | hblk
      · simp [hrefs, hlpc, List.isEmpty_cons]
      · simp [hblk, hlpc, List.isEmpty_cons, ite_self]
  · intro hnil hup hrp hlp hblock
    subst hnil
    unfold ref_field_step
    simp only [hfind, hrm, hup, hrp, hlp, List.nil_append, List.append_nil]
    rcases hblock with hrefs | hblk
    · simp only [hrefs, Bool.not_true, Bool.false_and, List.isEmpty_nil, Bool.and_true, if_false,
        Bool.false_eq_true]
      cases hw : wrong_type_errors source model related_model af.span field.relation_info with
      | nil => simp
      | cons a t => simp
    · rw [hblk]
      simp only [ite_self]
      cases hw : wrong_type_errors source model related_model af.span field.relation_info with
      | nil => simp
      | cons a t => simp

/-- Related model `B` with a single `String`-typed id field. -/
def c2_model_b : Model :=
  ⟨"B", [.scalar ⟨"bId", .base .string, .required, true, false, none⟩], [], [], false⟩

/-- First relation field of `A`: references a field missing from `B`. -/
def c2_r1 : RelationField := ⟨"r1", .optional, ⟨"B", "", [], ["nope"]⟩, false⟩

/-- Second relation field of `A`: type-incompatible pair `aId : Int` vs `bId : String`. -/
def c2_r2 : RelationField := ⟨"r2", .optional, ⟨"B", "", ["aId"], ["bId"]⟩, false⟩

def c2_model_a : Model :=
  ⟨"A",
    [.scalar ⟨"aId", .base .int, .required, false, false, none⟩,
     .relation c2_r1, .relation c2_r2],
    [], [], false⟩

def c2_dm : Datamodel := ⟨[c2_model_a, c2_model_b], []⟩

def c2_ast_model : AstModel :=
  ⟨⟨"A", ⟨0, 1⟩⟩,
    [⟨⟨"aId", ⟨2, 3⟩⟩, [], ⟨2, 5⟩⟩, ⟨⟨"r1", ⟨6, 7⟩⟩, [], ⟨6, 9⟩⟩, ⟨⟨"r2", ⟨10, 11⟩⟩, [], ⟨10, 13⟩⟩],
    [], ⟨0, 20⟩⟩

/-- Counterexample to C2: relation field `r2` has a type-incompatible pair and
no other error of its own (processed alone, the mismatch is emitted), yet in
the full rule run the unknown-reference error on the *different* relation
field `r1` of the same model suppresses `r2`'s mismatch diagnostic. -/
theorem claim_C2_counterexample :
    wrong_type_errors none c2_model_a c2_model_b ⟨10, 13⟩ c2_r2.relation_info
      = [.attribute_validation
          "The type of the field `aId` in the model `A` is not matching the type of the referenced field `bId` in model `B`."
          "relation" ⟨10, 13⟩]
    ∧ ref_field_step none c2_dm c2_ast_model c2_model_a [] c2_r2
      = .ok [.attribute_validation
          "The type of the field `aId` in the model `A` is not matching the type of the referenced field `bId` in model `B`."
          "relation" ⟨10, 13⟩]
    ∧ validate_referenced_fields_for_relation none c2_dm c2_ast_model c2_model_a
      = .ok [.validation
          "The argument `references` must refer only to existing fields in the related model `B`. The following fields do not exist in the related model: nope"
          ⟨6, 9⟩] :=
  ⟨rfl, rfl, rfl⟩

/-- Third relation field of `A`: an unknown reference of its own (`nope`)
next to a type-incompatible pair (`aId : Int` vs `bId : String`). -/
def c2_r3 : RelationField := ⟨"r3", .optional, ⟨"B", "", ["aId", "aId"], ["bId", "nope"]⟩, false⟩

def c2_ast_model3 : AstModel :=
  ⟨⟨"A", ⟨0, 1⟩⟩, [⟨⟨"r3", ⟨14, 15⟩⟩, [], ⟨14, 17⟩⟩], [], ⟨0, 20⟩⟩

/-- Related model `B4` with the id `b4Id` and a plain non-unique scalar. -/
def c2_model_b4 : Model :=
  ⟨"B4", [.scalar ⟨"b4Id", .base .int, .required, true, false, none⟩,
          .scalar ⟨"plain", .base .int, .required, false, false, none⟩], [], [], false⟩

/-- References the non-unique `plain`: the guarded block emits the
unique-criteria error. -/
def c2_r4 : RelationField := ⟨"r4", .optional, ⟨"B4", "", ["aId4"], ["plain"]⟩, false⟩

/-- Two base fields against one reference: only the length error fires. -/
def c2_r5 : RelationField := ⟨"r5", .optional, ⟨"B4", "", ["aId4", "aId4"], ["b4Id"]⟩, false⟩

def c2_model_a4 : Model :=
  ⟨"A4",
    [.scalar ⟨"aId4", .base .int, .required, false, false, none⟩,
     .relation c2_r4, .relation c2_r5],
    [], [], false⟩

def c2_dm4 : Datamodel := ⟨[c2_model_a4, c2_model_b4], []⟩

def c2_ast_model4 : AstModel :=
  ⟨⟨"A4", ⟨0, 2⟩⟩,
    [⟨⟨"aId4", ⟨3, 4⟩⟩, [], ⟨3, 6⟩⟩, ⟨⟨"r4", ⟨7, 8⟩⟩, [], ⟨7, 10⟩⟩, ⟨⟨"r5", ⟨11, 12⟩⟩, [], ⟨11, 14⟩⟩],
    [], ⟨0, 20⟩⟩

/-- Witness for the amended C2 at concrete inputs, one per case of the
characterization: an earlier-field error suppresses `r2`'s mismatch; `r3`'s
*own* unknown-reference error suppresses its mismatch even with an empty
incoming bag; `r4`'s guarded-block unique-criteria error suppresses;
`r5`'s length error suppresses; and with everything clean `r2`'s mismatch is
emitted. -/
theorem claim_C2_amended_witness :
    ref_field_step none c2_dm c2_ast_model c2_model_a
        [.validation "earlier" ⟨6, 9⟩] c2_r2
      = .ok (([.validation "earlier" ⟨6, 9⟩]
          ++ references_unknown_part c2_model_b c2_r2.relation_info ⟨10, 13⟩
          ++ references_relation_part c2_model_b c2_r2.relation_info ⟨10, 13⟩)
          ++ references_length_part c2_r2.relation_info ⟨10, 13⟩)
    ∧ (wrong_type_errors none c2_model_a c2_model_b ⟨14, 17⟩ c2_r3.relation_info ≠ []
      ∧ ref_field_step none c2_dm c2_ast_model3 c2_model_a [] c2_r3
        = .ok ((([] : List DatamodelError)
            ++ references_unknown_part c2_model_b c2_r3.relation_info ⟨14, 17⟩
            ++ references_relation_part c2_model_b c2_r3.relation_info ⟨14, 17⟩)
            ++ references_length_part c2_r3.relation_info ⟨14, 17⟩))
    ∧ ref_field_step none c2_dm4 c2_ast_model4 c2_model_a4 [] c2_r4
      = .ok ([.validation
          "The argument `references` must refer to a unique criteria in the related model `B4`. But it is referencing the following fields that are not a unique criteria: plain"
          ⟨7, 10⟩]
          ++ references_length_part c2_r4.relation_info ⟨7, 10⟩)
    ∧ ref_field_step none c2_dm4 c2_ast_model4 c2_model_a4 [] c2_r5
      = .ok (references_length_part c2_r5.relation_info ⟨11, 14⟩)
    ∧ ref_field_step none c2_dm c2_ast_model c2_model_a [] c2_r2
      = .ok (wrong_type_errors none c2_model_a c2_model_b ⟨10, 13⟩ c2_r2.relation_info) := by
  refine ⟨?_, ⟨?_, ?_⟩, ?_, ?_, ?_⟩
  · exact (claim_C2_amended none c2_dm c2_ast_model c2_model_a
      [.validation "earlier" ⟨6, 9⟩] c2_r2 ⟨⟨"r2", ⟨10, 11⟩⟩, [], ⟨10, 13⟩⟩ c2_model_b
      rfl rfl).1 (by decide)
  · decide
  · exact (claim_C2_amended none c2_dm c2_ast_model3 c2_model_a
      [] c2_r3 ⟨⟨"r3", ⟨14, 15⟩⟩, [], ⟨14, 17⟩⟩ c2_model_b
      rfl rfl).1 (by decide)
  · exact (claim_C2_amended none c2_dm4 c2_ast_model4 c2_model_a4
      [] c2_r4 ⟨⟨"r4", ⟨7, 8⟩⟩, [], ⟨7, 10⟩⟩ c2_model_b4
      rfl rfl).2.1
      [.validation
        "The argument `references` must refer to a unique criteria in the related model `B4`. But it is referencing the following fields that are not a unique criteria: plain"
        ⟨7, 10⟩]
      rfl rfl rfl (by decide)
  · exact (claim_C2_amended none c2_dm4 c2_ast_model4 c2_model_a4
      [] c2_r5 ⟨⟨"r5", ⟨11, 12⟩⟩, [], ⟨11, 14⟩⟩ c2_model_b4
      rfl rfl).2.2.1 rfl (Or.inr rfl) (by decide)
  · exact (claim_C2_amended none c2_dm c2_ast_model c2_model_a
      [] c2_r2 ⟨⟨"r2", ⟨10, 11⟩⟩, [], ⟨10, 13⟩⟩ c2_model_b
      rfl rfl).2.2.2 rfl rfl rfl rfl (Or.inr rfl)

/-- C6 as amended: inside the guarded block of
`validate_referenced_fields_for_relation` (which runs only when `references`
is non-empty and no error was accumulated so far for the model), a
many-to-many relation whose related model has a single `@id` field and whose
`references` fail the singular-id test gets the many-to-many error at the
field's span; passing the singular-id test means `references` is exactly the
one-element list of that id field's name; and no such error is produced when
the related model lacks a single `@id` field. -/
theorem claim_C6_amended :
    ∀ (source : Option Datasource) (datamodel : Datamodel) (model related_model : Model)
      (field : RelationField) (span : Span) (related_field : RelationField),
      datamodel.find_related_field model.name field = some related_field →
      field.is_list = true → related_field.is_list = true →
      ((related_model.has_single_id_field = true →
        ∀ sing, references_singular_id_field related_model field.relation_info = .ok sing →
        sing = false →
        ∃ es, referenced_fields_block source datamodel model related_model field span = .ok es
          ∧ DatamodelError.validation
              ("Many to many relations must always reference the id field of the related model. Change the argument `references` to use the id field of the related model `"
                ++ related_model.name
                ++ "`. But it is referencing the following fields that are not the id: "
                ++ String.intercalate ", " field.relation_info.references)
              span ∈ es)
      ∧ (related_model.has_single_id_field = true →
        ∀ sing, references_singular_id_field related_model field.relation_info = .ok sing →
        sing = true →
        ∃ sf, related_model.singular_id_fields = [sf]
          ∧ field.relation_info.references = [sf.name])
      ∧ (related_model.has_single_id_field = false →
        ∀ sing, references_singular_id_field related_model field.relation_info = .ok sing →
        referenced_fields_block source datamodel model related_model field span
          = .ok (unique_criteria_part source related_model field.relation_info span))) := by
  intro source datamodel model related_model field span related_field hrel hl1 hl2
  refine ⟨?_, ?_, ?_⟩
  · intro hsingle sing hsing hfalse
    subst hfalse
    unfold referenced_fields_block
    rw [hsing]
    refine ⟨_, rfl, ?_⟩
    unfold many_to_many_part
    simp only [hrel, hl1, hl2, hsingle, Bool.and_self, Bool.not_false, Bool.and_true, if_true]
    simp [List.mem_append]
  · intro hsingle sing hsing htrue
    subst htrue
    unfold references_singular_id_field at hsing
    by_cases hlen : (field.relation_info.references.length == 1) = true
    · rw [if_pos hlen] at hsing
      have hlen1 : field.relation_info.references.length = 1 := by simpa using hlen
      rcases List.length_eq_one.mp hlen1 with ⟨fn, hfn⟩
      rw [hfn] at hsing
      simp only [List.head?_cons] at hsing
      cases hfsf : related_model.find_scalar_field fn with
      | none => rw [hfsf] at hsing; exact absurd hsing (by simp)
      | some rf =>
        rw [hfsf] at hsing
        have hid : rf.is_id = true := by
          have h := Except.ok.inj hsing
          exact h
        have hsingle1 : related_model.singular_id_fields.length = 1 := by
          unfold Model.has_single_id_field at hsingle
          simpa using hsingle
        rcases List.length_eq_one.mp hsingle1 with ⟨sf, hsf⟩
        have hrfmem : rf ∈ related_model.scalar_fields :=
          List.mem_of_find?_eq_some hfsf
        have hrfname : rf.name = fn := by
          have := List.find?_some hfsf
          exact (beq_iff_eq.mp this)
        have hrfsing : rf ∈ related_model.singular_id_fields := by
          unfold Model.singular_id_fields
          rw [List.mem_filter]
          exact ⟨hrfmem, hid⟩
        rw [hsf] at hrfsing
        have : rf = sf := List.mem_singleton.mp hrfsing
        subst this
        exact ⟨rf, hsf, by rw [hfn, hrfname]⟩
    · rw [if_neg hlen] at hsing
      exact absurd hsing (by simp)
  · intro hsingle sing hsing
    unfold referenced_fields_block
    rw [hsing]
    unfold many_to_many_part
    simp [hsingle]

/-- The `A`-side of an unannotated many-to-many relation (empty `references`). -/
def c6_as : RelationField := ⟨"bs", .list, ⟨"B", "", [], []⟩, false⟩

/-- The `B`-side back-relation field. -/
def c6_ba : RelationField := ⟨"as", .list, ⟨"A", "", [], []⟩, false⟩

def c6_model_a : Model := ⟨"A", [.relation c6_as], [], [], false⟩

def c6_model_b : Model :=
  ⟨"B", [.scalar ⟨"bId", .base .int, .required, true, false, none⟩, .relation c6_ba], [], [], false⟩

def c6_dm : Datamodel := ⟨[c6_model_a, c6_model_b], []⟩

def c6_ast_model : AstModel := ⟨⟨"A", ⟨0, 1⟩⟩, [⟨⟨"bs", ⟨2, 3⟩⟩, [], ⟨2, 8⟩⟩], [], ⟨0, 30⟩⟩

/-- Counterexample to C6: `bs`/`as` form a many-to-many relation, `B` has the
single `@id` field `bId`, and `references` (empty) is not `[bId]` — yet the
rule emits no error at all, because the empty `references` list never enters
the guarded block. -/
theorem claim_C6_counterexample :
    c6_dm.find_related_field "A" c6_as = some c6_ba
      ∧ c6_as.is_list = true
      ∧ c6_ba.is_list = true
      ∧ c6_model_b.has_single_id_field = true
      ∧ c6_as.relation_info.references ≠ ["bId"]
      ∧ validate_referenced_fields_for_relation none c6_dm c6_ast_model c6_model_a = .ok [] :=
  ⟨rfl, rfl, rfl, rfl, by decide, rfl⟩

/-- Many-to-many pair referencing the non-id unique field `slug` of `B2`. -/
def c6w_aw : RelationField := ⟨"bs", .list, ⟨"B2", "", [], ["slug"]⟩, false⟩

def c6w_aw2 : RelationField := ⟨"bs2", .list, ⟨"B2", "", [], ["bId2"]⟩, false⟩

def c6w_bw : RelationField := ⟨"as", .list, ⟨"A2", "", [], []⟩, false⟩

def c6w_model_a : Model := ⟨"A2", [.relation c6w_aw, .relation c6w_aw2], [], [], false⟩

def c6w_model_b : Model :=
  ⟨"B2",
    [.scalar ⟨"bId2", .base .int, .required, true, false, none⟩,
     .scalar ⟨"slug", .base .string, .required, false, true, none⟩,
     .relation c6w_bw],
    [], [], false⟩

def c6w_dm : Datamodel := ⟨[c6w_model_a, c6w_model_b], []⟩

/-- A related model without any singular id. -/
def c6w_model_b3 : Model :=
  ⟨"B3", [.scalar ⟨"s3", .base .int, .required, false, true, none⟩,
          .relation ⟨"a3s", .list, ⟨"A3", "", [], []⟩, false⟩], [], [], false⟩

def c6w_a3 : RelationField := ⟨"b3s", .list, ⟨"B3", "", [], ["s3"]⟩, false⟩

def c6w_model_a3 : Model := ⟨"A3", [.relation c6w_a3], [], [], false⟩

def c6w_dm3 : Datamodel := ⟨[c6w_model_a3, c6w_model_b3], []⟩

/-- Witness for the amended C6 at concrete inputs. -/
theorem claim_C6_amended_witness :
    (∃ es, referenced_fields_block none c6w_dm c6w_model_a c6w_model_b c6w_aw ⟨2, 8⟩ = .ok es
      ∧ DatamodelError.validation
          "Many to many relations must always reference the id field of the related model. Change the argument `references` to use the id field of the related model `B2`. But it is referencing the following fields that are not the id: slug"
          ⟨2, 8⟩ ∈ es)
    ∧ (∃ sf, c6w_model_b.singular_id_fields = [sf]
        ∧ c6w_aw2.relation_info.references = [sf.name])
    ∧ referenced_fields_block none c6w_dm3 c6w_model_a3 c6w_model_b3 c6w_a3 ⟨4, 9⟩
      = .ok (unique_criteria_part none c6w_model_b3 c6w_a3.relation_info ⟨4, 9⟩) := by
  refine ⟨?_, ?_, ?_⟩
  · exact (claim_C6_amended none c6w_dm c6w_model_a c6w_model_b c6w_aw ⟨2, 8⟩ c6w_bw
      rfl rfl rfl).1 rfl false rfl rfl
  · exact (claim_C6_amended none c6w_dm c6w_model_a c6w_model_b c6w_aw2 ⟨9, 12⟩ c6w_bw
      rfl rfl rfl).2.1 rfl true rfl rfl
  · exact (claim_C6_amended none c6w_dm3 c6w_model_a3 c6w_model_b3 c6w_a3 ⟨4, 9⟩
      ⟨"a3s", .list, ⟨"A3", "", [], []⟩, false⟩ rfl rfl rfl).2.2 rfl false rfl

/-- The references-on-both-sides diagnostic of R18, as built by
`bla_field_step` for field `f` on model `m` with related field `g` on `rm`. -/
def references_both_error (f : RelationField) (m : Model) (g : RelationField) (rm : Model)
    (span : Span) : DatamodelError :=
  .attribute_validation
    ("The relation fields `" ++ f.name ++ "` on Model `" ++ m.name ++ "` and `"
      ++ g.name ++ "` on Model `" ++ rm.name
      ++ "` both provide the `references` argument in the " ++ RELATION_ATTRIBUTE_NAME_WITH_AT
      ++ " attribute. You have to provide it only on one of the two fields.")
    RELATION_ATTRIBUTE_NAME span

/-- The fields-on-both-sides diagnostic of R18. -/
def fields_both_error (f : RelationField) (m : Model) (g : RelationField) (rm : Model)
    (span : Span) : DatamodelError :=
  .attribute_validation
    ("The relation fields `" ++ f.name ++ "` on Model `" ++ m.name ++ "` and `"
      ++ g.name ++ "` on Model `" ++ rm.name
      ++ "` both provide the `fields` argument in the " ++ RELATION_ATTRIBUTE_NAME_WITH_AT
      ++ " attribute. You have to provide it only on one of the two fields.")
    RELATION_ATTRIBUTE_NAME span

theorem bla_one_to_one_both_sides (source : Option Datasource) (dm : Datamodel)
    (m rm : Model) (f g : RelationField) (am : AstModel) :
    dm.find_model f.relation_info.«to» = some rm →
    dm.find_related_field m.name f = some g →
    rm.is_ignored = false →
    f.is_list = false → g.is_list = false →
    f.is_singular = true → g.is_singular = true →
    f.relation_info.fields.isEmpty = false → g.relation_info.fields.isEmpty = false →
    f.relation_info.references.isEmpty = false → g.relation_info.references.isEmpty = false →
    bla_field_step source dm am m [] f
      = .ok [references_both_error f m g rm (bla_field_span am f.name),
             fields_both_error f m g rm (bla_field_span am f.name)] := by
  intro hfm hrel hig hfl hgl hfs hgs hff hgf hfr hgr
  unfold bla_field_step
  simp only [hfm, hrel]
  simp only [hig, hfl, hgl, hfs, hgs, hff, hgf, hfr, hgr,
    Bool.false_and, Bool.and_false, Bool.true_and, Bool.and_true, Bool.and_self,
    Bool.not_false, Bool.not_true, if_false, if_true, Bool.false_eq_true,
    List.nil_append, List.append_nil]
  simp [references_both_error, fields_both_error]

/-- C7: a one-to-one relation (both fields singular) with both `fields` and
both `references` provided on both sides makes pass 2 fail with exactly four
diagnostics: references-on-both and fields-on-both for side A, then the same
two for side B — in R18's order; the cross-sided-argument and required-field
checks are suppressed by the earlier errors, and no other diagnostic appears. -/
theorem claim_C7_one_to_one_both_sides :
    ∀ (source : Option Datasource) (ast_schema : SchemaAst) (dm : Datamodel)
      (ma mb : Model) (a b : RelationField) (ama amb : AstModel),
      dm.models = [ma, mb] →
      ma.relation_fields = [a] → mb.relation_fields = [b] →
      ma.name ≠ mb.name →
      a.relation_info.«to» = mb.name → b.relation_info.«to» = ma.name →
      a.relation_info.name = b.relation_info.name →
      a.is_list = false → b.is_list = false →
      a.is_singular = true → b.is_singular = true →
      a.relation_info.fields.isEmpty = false → b.relation_info.fields.isEmpty = false →
      a.relation_info.references.isEmpty = false → b.relation_info.references.isEmpty = false →
      ma.is_ignored = false → mb.is_ignored = false →
      ast_schema.find_model ma.name = some ama →
      ast_schema.find_model mb.name = some amb →
      post_standardisation_validate source ast_schema dm
        = .ok (.error
            [references_both_error a ma b mb (bla_field_span ama a.name),
             fields_both_error a ma b mb (bla_field_span ama a.name),
             references_both_error b mb a ma (bla_field_span amb b.name),
             fields_both_error b mb a ma (bla_field_span amb b.name)]) := by
  intro source ast_schema dm ma mb a b ama amb
  intro hdm hmaf hmbf hne hato hbto hname hal hbl has hbs haf hbf har hbr hmai hmbi hfa hfb
  have hfmA : dm.find_model a.relation_info.«to» = some mb := by
    unfold Datamodel.find_model
    rw [hdm, hato]
    rw [List.find?_cons_of_neg _ (by simp [hne]), List.find?_cons_of_pos _ (by simp)]
  have hfmB : dm.find_model b.relation_info.«to» = some ma := by
    unfold Datamodel.find_model
    rw [hdm, hbto]
    rw [List.find?_cons_of_pos _ (by simp)]
  have hrelA : dm.find_related_field ma.name a = some b := by
    unfold Datamodel.find_related_field
    rw [hfmA]
    simp only [Option.bind_some, Option.some_bind]
    rw [hmbf]
    rw [List.find?_cons_of_pos _ (by
      rw [hbto, hname, hato]
      simp [hne, Ne.symm hne])]
  have hrelB : dm.find_related_field mb.name b = some a := by
    unfold Datamodel.find_related_field
    rw [hfmB]
    simp only [Option.bind_some, Option.some_bind]
    rw [hmaf]
    rw [List.find?_cons_of_pos _ (by
      rw [hato, hname, hbto]
      simp [hne, Ne.symm hne])]
  have hstepA : validate_relation_arguments_bla source dm ama ma
      = .ok [references_both_error a ma b mb (bla_field_span ama a.name),
             fields_both_error a ma b mb (bla_field_span ama a.name)] := by
    unfold validate_relation_arguments_bla
    rw [hmaf]
    simp only [except_foldl]
    rw [bla_one_to_one_both_sides source dm ma mb a b ama hfmA hrelA hmbi hal hbl has hbs haf hbf har hbr]
  have hstepB : validate_relation_arguments_bla source dm amb mb
      = .ok [references_both_error b mb a ma (bla_field_span amb b.name),
             fields_both_error b mb a ma (bla_field_span amb b.name)] := by
    unfold validate_relation_arguments_bla
    rw [hmbf]
    simp only [except_foldl]
    rw [bla_one_to_one_both_sides source dm mb ma b a amb hfmB hrelB hmai hbl hal hbs has hbf haf hbr har]
  unfold post_standardisation_validate post_collected_errors
  rw [hdm]
  simp only [except_concat_map]
  unfold expect_state
  rw [hfa, hfb]
  simp only [hstepA, hstepB]
  rfl

/-- Concrete one-to-one relation with `fields` and `references` on both sides. -/
def c7_a : RelationField := ⟨"b", .optional, ⟨"B7", "", ["a_fk"], ["b_id"]⟩, false⟩

def c7_b : RelationField := ⟨"a", .optional, ⟨"A7", "", ["b_fk"], ["a_id"]⟩, false⟩

def c7_model_a : Model := ⟨"A7", [.relation c7_a], [], [], false⟩

def c7_model_b : Model := ⟨"B7", [.relation c7_b], [], [], false⟩

def c7_dm : Datamodel := ⟨[c7_model_a, c7_model_b], []⟩

def c7_ast : SchemaAst :=
  ⟨[⟨⟨"A7", ⟨0, 2⟩⟩, [⟨⟨"b", ⟨5, 6⟩⟩, [], ⟨5, 9⟩⟩], [], ⟨0, 10⟩⟩,
    ⟨⟨"B7", ⟨11, 13⟩⟩, [⟨⟨"a", ⟨15, 16⟩⟩, [], ⟨15, 19⟩⟩], [], ⟨11, 20⟩⟩], []⟩

/-- Witness for C7 at a concrete input. -/
theorem claim_C7_witness :
    post_standardisation_validate none c7_ast c7_dm
      = .ok (.error
          [references_both_error c7_a c7_model_a c7_b c7_model_b (bla_field_span ⟨⟨"A7", ⟨0, 2⟩⟩, [⟨⟨"b", ⟨5, 6⟩⟩, [], ⟨5, 9⟩⟩], [], ⟨0, 10⟩⟩ "b"),
           fields_both_error c7_a c7_model_a c7_b c7_model_b (bla_field_span ⟨⟨"A7", ⟨0, 2⟩⟩, [⟨⟨"b", ⟨5, 6⟩⟩, [], ⟨5, 9⟩⟩], [], ⟨0, 10⟩⟩ "b"),
           references_both_error c7_b c7_model_b c7_a c7_model_a (bla_field_span ⟨⟨"B7", ⟨11, 13⟩⟩, [⟨⟨"a", ⟨15, 16⟩⟩, [], ⟨15, 19⟩⟩], [], ⟨11, 20⟩⟩ "a"),
           fields_both_error c7_b c7_model_b c7_a c7_model_a (bla_field_span ⟨⟨"B7", ⟨11, 13⟩⟩, [⟨⟨"a", ⟨15, 16⟩⟩, [], ⟨15, 19⟩⟩], [], ⟨11, 20⟩⟩ "a")]) :=
  claim_C7_one_to_one_both_sides none c7_ast c7_dm c7_model_a c7_model_b c7_a c7_b
    ⟨⟨"A7", ⟨0, 2⟩⟩, [⟨⟨"b", ⟨5, 6⟩⟩, [], ⟨5, 9⟩⟩], [], ⟨0, 10⟩⟩
    ⟨⟨"B7", ⟨11, 13⟩⟩, [⟨⟨"a", ⟨15, 16⟩⟩, [], ⟨15, 19⟩⟩], [], ⟨11, 20⟩⟩
    rfl rfl rfl (by decide) rfl rfl rfl rfl rfl rfl rfl rfl rfl rfl rfl rfl rfl rfl rfl

/-- A computation that never aborts with the state-error message. -/
def not_state_error {α : Type} (e : Except String α) : Prop :=
  ∀ m, e = .error m → m ≠ STATE_ERROR

theorem unwrap_ne_state : UNWRAP_PANIC ≠ STATE_ERROR := by decide

theorem find_field_ne_state : FIND_FIELD_PANIC ≠ STATE_ERROR := by decide

theorem not_state_error_ok {α : Type} (a : α) : not_state_error (Except.ok a) := by
  intro m h
  exact absurd h (by simp)

theorem except_concat_map_not_state {α β : Type} (f : α → Except String (List β)) :
    ∀ (l : List α), (∀ x ∈ l, not_state_error (f x)) →
      not_state_error (except_concat_map f l) := by
  intro l
  induction l with
  | nil =>
    intro _ m h
    exact absurd h (by simp [except_concat_map])
  | cons a rest ih =>
    intro hf m h
    simp only [except_concat_map] at h
    cases hfa : f a with
    | error m2 =>
      rw [hfa] at h
      cases h
      exact hf a (List.mem_cons_self a rest) _ hfa
    | ok ha =>
      rw [hfa] at h
      cases hrec : except_concat_map f rest with
      | error m2 =>
        rw [hrec] at h
        cases h
        exact ih (fun x hx => hf x (List.mem_cons_of_mem a hx)) _ hrec
      | ok ht =>
        rw [hrec] at h
        exact absurd h (by simp)

theorem except_foldl_not_state {σ α : Type} (f : σ → α → Except String σ) :
    ∀ (l : List α) (s : σ), (∀ s2, ∀ x ∈ l, not_state_error (f s2 x)) →
      not_state_error (except_foldl f s l) := by
  intro l
  induction l with
  | nil =>
    intro s _ m h
    exact absurd h (by simp [except_foldl])
  | cons a rest ih =>
    intro s hf m h
    simp only [except_foldl] at h
    cases hfa : f s a with
    | error m2 =>
      rw [hfa] at h
      cases h
      exact hf s a (List.mem_cons_self a rest) _ hfa
    | ok s2 =>
      rw [hfa] at h
      exact ih s2 (fun s3 x hx => hf s3 x (List.mem_cons_of_mem a hx)) m h

theorem first_some_except_ok {α β : Type} (f : α → Except String (Option β)) :
    ∀ (l : List α), (∀ x ∈ l, ∃ r, f x = .ok r) →
      ∃ r, first_some_except f l = .ok r := by
  intro l
  induction l with
  | nil =>
    intro _
    exact ⟨none, rfl⟩
  | cons a rest ih =>
    intro hf
    rcases hf a (List.mem_cons_self a rest) with ⟨r, hr⟩
    simp only [first_some_except]
    rw [hr]
    cases r with
    | some b => exact ⟨some b, rfl⟩
    | none => exact ih (fun x hx => hf x (List.mem_cons_of_mem a hx))

theorem id_arity_errors_not_state (ast_schema : SchemaAst) (model : Model) :
    not_state_error (id_arity_errors ast_schema model) := by
  intro m h
  unfold id_arity_errors at h
  repeat' split at h
  all_goals first
    | (injection h with h2; subst h2; exact unwrap_ne_state)
    | (injection h with h2; subst h2; exact find_field_ne_state)
    | injection h

theorem index_names_step_not_state (supported : Bool) (ast_model : AstModel)
    (st : List String × List DatamodelError) (index : IndexDefinition) :
    not_state_error (index_names_step supported ast_model st index) := by
  intro m h
  obtain ⟨seen, errs⟩ := st
  unfold index_names_step at h
  repeat' split at h
  all_goals first
    | (injection h with h2; subst h2; exact unwrap_ne_state)
    | (injection h with h2; subst h2; exact find_field_ne_state)
    | injection h

theorem validate_names_for_indexes_not_state (source : Option Datasource)
    (ast_schema : SchemaAst) (schema : Datamodel) :
    not_state_error (validate_names_for_indexes source ast_schema schema) := by
  intro m h
  unfold validate_names_for_indexes at h
  cases hfold : except_foldl (fun st model =>
      match ast_schema.find_model model.name with
      | none => .ok st
      | some ast_model =>
        except_foldl (index_names_step (multiple_indexes_supported source) ast_model) st model.indices)
    ([], []) schema.models with
  | error m2 =>
    rw [hfold] at h
    cases h
    refine except_foldl_not_state _ _ _ (fun st model _ => ?_) _ hfold
    intro m3 h3
    cases hfm : ast_schema.find_model model.name with
    | none =>
      rw [hfm] at h3
      exact absurd h3 (by simp)
    | some ast_model =>
      rw [hfm] at h3
      exact except_foldl_not_state _ _ _
        (fun st2 index _ => index_names_step_not_state _ _ _ _) m3 h3
  | ok st =>
    rw [hfold] at h
    exact absurd h (by simp)

theorem validate_field_arities_not_state (source : Option Datasource) (ast_model : AstModel)
    (model : Model) : not_state_error (validate_field_arities source ast_model model) := by
  unfold validate_field_arities
  refine except_concat_map_not_state _ _ (fun field _ => ?_)
  intro m h
  repeat' split at h
  all_goals first
    | (injection h with h2; subst h2; exact find_field_ne_state)
    | (injection h with h2; subst h2; exact unwrap_ne_state)
    | injection h

theorem validate_field_types_not_state (source : Option Datasource) (ast_model : AstModel)
    (model : Model) : not_state_error (validate_field_types source ast_model model) := by
  unfold validate_field_types
  refine except_concat_map_not_state _ _ (fun field _ => ?_)
  intro m h
  repeat' first
    | (split at h)
    | (simp only [] at h)
  all_goals first
    | (injection h with h2; subst h2; exact find_field_ne_state)
    | (injection h with h2; subst h2; exact unwrap_ne_state)
    | injection h

theorem validate_enum_default_values_not_state (schema : Datamodel) (ast_model : AstModel)
    (model : Model) : not_state_error (validate_enum_default_values schema ast_model model) := by
  unfold validate_enum_default_values
  refine except_concat_map_not_state _ _ (fun field _ => ?_)
  intro m h
  repeat' split at h
  all_goals first
    | (injection h with h2; subst h2; exact find_field_ne_state)
    | (injection h with h2; subst h2; exact unwrap_ne_state)
    | injection h

theorem validate_auto_increment_not_state (source : Option Datasource) (ast_model : AstModel)
    (model : Model) : not_state_error (validate_auto_increment source ast_model model) := by
  intro m h
  unfold validate_auto_increment at h
  cases source with
  | none => exact absurd h (by simp)
  | some data_source =>
    simp only at h
    cases hrest : except_concat_map (fun field =>
        match ast_model.find_field_opt field.name with
        | none => .error FIND_FIELD_PANIC
        | some ast_field =>
          let non_id_part :=
            if !field.is_id && field.is_auto_increment
                && !data_source.combined_connector.supports_non_id_auto_increment then
              [DatamodelError.attribute_validation
                "The `autoincrement()` default value is used on a non-id field even though the datasource does not support this."
                "default" ast_field.span]
            else []
          let non_indexed_part :=
            if field.is_auto_increment && !model.field_is_indexed field.name
                && !data_source.combined_connector.supports_non_indexed_auto_increment then
              [DatamodelError.attribute_validation
                "The `autoincrement()` default value is used on a non-indexed field even though the datasource does not support this."
                "default" ast_field.span]
            else []
          Except.ok (non_id_part ++ non_indexed_part)) model.scalar_fields with
    | error m2 =>
      rw [hrest] at h
      have hm : (Except.error m2 : Except String (List DatamodelError)) = Except.error m := h
      injection hm with h5
      subst h5
      refine except_concat_map_not_state _ _ (fun field _ => ?_) m2 hrest
      intro m3 h3
      repeat' split at h3
      all_goals first
        | (injection h3 with h4; subst h4; exact find_field_ne_state)
        | injection h3
    | ok rest =>
      rw [hrest] at h
      exact absurd h (by simp)

theorem validate_field_connector_specific_not_state (source : Option Datasource)
    (ast_model : AstModel) (model : Model) :
    not_state_error (validate_field_connector_specific source ast_model model) := by
  intro m h
  unfold validate_field_connector_specific at h
  cases source with
  | none => exact absurd h (by simp)
  | some s =>
    refine except_concat_map_not_state _ _ (fun field _ => ?_) m h
    intro m2 h2
    repeat' split at h2
    all_goals first
      | (injection h2 with h3; subst h3; exact find_field_ne_state)
      | injection h2

theorem base_field_errors_not_state (ast_model : AstModel) (model : Model)
    (field : RelationField) : not_state_error (base_field_errors ast_model model field) := by
  intro m h
  unfold base_field_errors at h
  repeat' split at h
  all_goals first
    | (injection h with h2; subst h2; exact find_field_ne_state)
    | (injection h with h2; subst h2; exact unwrap_ne_state)
    | injection h

theorem validate_base_fields_for_relation_not_state (schema : Datamodel) (ast_model : AstModel)
    (model : Model) : not_state_error (validate_base_fields_for_relation schema ast_model model) := by
  unfold validate_base_fields_for_relation
  exact except_concat_map_not_state _ _ (fun field _ => base_field_errors_not_state _ _ _)

theorem ambiguous_pair_check_ok (ast_schema : SchemaAst) (model : Model)
    (all : List RelationField) (field_a field_b : RelationField)
    (hsome : (SchemaAst.find_field ast_schema model.name field_a.name).isSome) :
    ∃ r, ambiguous_pair_check ast_schema model all field_a field_b = .ok r := by
  obtain ⟨af, haf⟩ := Option.isSome_iff_exists.mp hsome
  cases he : ambiguous_pair_check ast_schema model all field_a field_b with
  | ok r => exact ⟨r, rfl⟩
  | error m =>
    exfalso
    unfold ambiguous_pair_check at he
    simp only [haf] at he
    repeat' split at he
    all_goals injection he

theorem validate_relations_not_ambiguous_ok (ast_schema : SchemaAst) (model : Model)
    (h4 : ∀ rf ∈ model.relation_fields, (SchemaAst.find_field ast_schema model.name rf.name).isSome) :
    ∃ r, validate_relations_not_ambiguous ast_schema model = .ok r := by
  unfold validate_relations_not_ambiguous
  refine first_some_except_ok _ _ (fun a ha => ?_)
  refine first_some_except_ok _ _ (fun b hb => ?_)
  exact ambiguous_pair_check_ok ast_schema model model.relation_fields a b (h4 a ha)

theorem referenced_fields_block_not_state (source : Option Datasource) (datamodel : Datamodel)
    (model related_model : Model) (field : RelationField) (span : Span) :
    not_state_error (referenced_fields_block source datamodel model related_model field span) := by
  intro m h
  unfold referenced_fields_block at h
  cases hs : references_singular_id_field related_model field.relation_info with
  | error m2 =>
    rw [hs] at h
    have hm2 : (Except.error m2 : Except String (List DatamodelError)) = .error m := h
    injection hm2 with h2
    subst h2
    unfold references_singular_id_field at hs
    repeat' split at hs
    all_goals first
      | (injection hs with h3; subst h3; exact unwrap_ne_state)
      | injection hs
  | ok b =>
    rw [hs] at h
    exact absurd h (by simp)

theorem ref_field_step_not_state (source : Option Datasource) (datamodel : Datamodel)
    (ast_model : AstModel) (model : Model) (field : RelationField)
    (hfm : (datamodel.find_model field.relation_info.«to»).isSome) :
    ∀ errs, not_state_error (ref_field_step source datamodel ast_model model errs field) := by
  intro errs m h
  obtain ⟨rm, hrm⟩ := Option.isSome_iff_exists.mp hfm
  unfold ref_field_step at h
  cases hfo : ast_model.find_field_opt field.name with
  | none =>
    rw [hfo] at h
    have hm2 : (Except.error FIND_FIELD_PANIC : Except String (List DatamodelError)) = .error m := h
    injection hm2 with h2
    subst h2
    exact find_field_ne_state
  | some af =>
    simp only [hfo, hrm] at h
    split at h
    · rename_i m2 heq
      injection h with h2
      subst h2
      revert heq
      split
      · intro heq
        exact referenced_fields_block_not_state source datamodel model rm field af.span _ heq
      · intro heq
        exact absurd heq (by simp)
    · exact absurd h (by simp)

theorem validate_referenced_fields_for_relation_not_state (source : Option Datasource)
    (datamodel : Datamodel) (ast_model : AstModel) (model : Model)
    (h3 : ∀ rf ∈ model.relation_fields, (datamodel.find_model rf.relation_info.«to»).isSome) :
    not_state_error (validate_referenced_fields_for_relation source datamodel ast_model model) := by
  unfold validate_referenced_fields_for_relation
  exact except_foldl_not_state _ _ _
    (fun s rf hrf => ref_field_step_not_state source datamodel ast_model model rf (h3 rf hrf) s)

theorem except_foldl_ok {σ α : Type} (f : σ → α → Except String σ) :
    ∀ (l : List α) (s : σ), (∀ s2, ∀ x ∈ l, ∃ r, f s2 x = .ok r) →
      ∃ r, except_foldl f s l = .ok r := by
  intro l
  induction l with
  | nil =>
    intro s _
    exact ⟨s, rfl⟩
  | cons a rest ih =>
    intro s hf
    rcases hf s a (List.mem_cons_self a rest) with ⟨r, hr⟩
    simp only [except_foldl]
    rw [hr]
    exact ih r (fun s2 x hx => hf s2 x (List.mem_cons_of_mem a hx))

theorem except_concat_map_ok {α β : Type} (f : α → Except String (List β)) :
    ∀ (l : List α), (∀ x ∈ l, ∃ r, f x = .ok r) →
      ∃ r, except_concat_map f l = .ok r := by
  intro l
  induction l with
  | nil =>
    intro _
    exact ⟨[], rfl⟩
  | cons a rest ih =>
    intro hf
    rcases hf a (List.mem_cons_self a rest) with ⟨r, hr⟩
    rcases ih (fun x hx => hf x (List.mem_cons_of_mem a hx)) with ⟨t, ht⟩
    simp only [except_concat_map]
    rw [hr, ht]
    exact ⟨r ++ t, rfl⟩

theorem bla_field_step_ok (source : Option Datasource) (datamodel : Datamodel)
    (ast_model : AstModel) (model : Model) (field : RelationField)
    (hfm : (datamodel.find_model field.relation_info.«to»).isSome) :
    ∀ errs, ∃ r, bla_field_step source datamodel ast_model model errs field = .ok r := by
  intro errs
  obtain ⟨rm, hrm⟩ := Option.isSome_iff_exists.mp hfm
  unfold bla_field_step
  simp only [hrm]
  cases hrel : datamodel.find_related_field model.name field with
  | none =>
    try rw [hrel]
    exact ⟨_, rfl⟩
  | some related_field =>
    try rw [hrel]
    exact ⟨_, rfl⟩

theorem validate_relation_arguments_bla_ok (source : Option Datasource) (datamodel : Datamodel)
    (ast_model : AstModel) (model : Model)
    (h3 : ∀ rf ∈ model.relation_fields, (datamodel.find_model rf.relation_info.«to»).isSome) :
    ∃ r, validate_relation_arguments_bla source datamodel ast_model model = .ok r := by
  unfold validate_relation_arguments_bla
  exact except_foldl_ok _ _ _
    (fun s rf hrf => bla_field_step_ok source datamodel ast_model model rf (h3 rf hrf) s)

theorem validate_enum_step_ok (ast_schema : SchemaAst) (declared_enum : Enum)
    (h2 : (ast_schema.find_enum declared_enum.name).isSome) :
    ∃ r, validate_enum_step ast_schema declared_enum = .ok r := by
  obtain ⟨ae, hae⟩ := Option.isSome_iff_exists.mp h2
  unfold validate_enum_step expect_state
  rw [hae]
  exact ⟨_, rfl⟩

theorem validate_model_step_not_state (source : Option Datasource) (ast_schema : SchemaAst)
    (schema : Datamodel) (model : Model)
    (hm : (ast_schema.find_model model.name).isSome)
    (h3 : ∀ rf ∈ model.relation_fields, (schema.find_model rf.relation_info.«to»).isSome)
    (h4 : ∀ rf ∈ model.relation_fields, (SchemaAst.find_field ast_schema model.name rf.name).isSome) :
    not_state_error (validate_model_step source ast_schema schema model) := by
  intro m h
  obtain ⟨am, ham⟩ := Option.isSome_iff_exists.mp hm
  unfold validate_model_step at h
  cases hid : id_arity_errors ast_schema model with
  | error m2 =>
    simp only [hid] at h
    have hm2 : (Except.error m2 : Except String (List DatamodelError)) = .error m := h
    injection hm2 with h2
    subst h2
    exact id_arity_errors_not_state _ _ _ hid
  | ok id_errs =>
    simp only [hid, ham, expect_state] at h
    rcases validate_relations_not_ambiguous_ok ast_schema model h4 with ⟨amb, hamb⟩
    simp only [hamb] at h
    cases ha : validate_field_arities source am model with
    | error m2 =>
      simp only [ha] at h
      have hm2 : (Except.error m2 : Except String (List DatamodelError)) = .error m := h
      injection hm2 with h2
      subst h2
      exact validate_field_arities_not_state _ _ _ _ ha
    | ok arity_errs =>
    simp only [ha] at h
    cases ht : validate_field_types source am model with
    | error m2 =>
      simp only [ht] at h
      have hm2 : (Except.error m2 : Except String (List DatamodelError)) = .error m := h
      injection hm2 with h2
      subst h2
      exact validate_field_types_not_state _ _ _ _ ht
    | ok type_errs =>
    simp only [ht] at h
    cases hc : validate_field_connector_specific source am model with
    | error m2 =>
      simp only [hc] at h
      have hm2 : (Except.error m2 : Except String (List DatamodelError)) = .error m := h
      injection hm2 with h2
      subst h2
      exact validate_field_connector_specific_not_state _ _ _ _ hc
    | ok conn_errs =>
    simp only [hc] at h
    cases hd : validate_enum_default_values schema am model with
    | error m2 =>
      simp only [hd] at h
      have hm2 : (Except.error m2 : Except String (List DatamodelError)) = .error m := h
      injection hm2 with h2
      subst h2
      exact validate_enum_default_values_not_state _ _ _ _ hd
    | ok default_errs =>
    simp only [hd] at h
    cases hai : validate_auto_increment source am model with
    | error m2 =>
      simp only [hai] at h
      have hm2 : (Except.error m2 : Except String (List DatamodelError)) = .error m := h
      injection hm2 with h2
      subst h2
      exact validate_auto_increment_not_state _ _ _ _ hai
    | ok auto_errs =>
    simp only [hai] at h
    cases hb : validate_base_fields_for_relation schema am model with
    | error m2 =>
      simp only [hb] at h
      have hm2 : (Except.error m2 : Except String (List DatamodelError)) = .error m := h
      injection hm2 with h2
      subst h2
      exact validate_base_fields_for_relation_not_state _ _ _ _ hb
    | ok base_errs =>
    simp only [hb] at h
    cases hr : validate_referenced_fields_for_relation source schema am model with
    | error m2 =>
      simp only [hr] at h
      have hm2 : (Except.error m2 : Except String (List DatamodelError)) = .error m := h
      injection hm2 with h2
      subst h2
      exact validate_referenced_fields_for_relation_not_state source schema am model h3 _ hr
    | ok referenced_errs =>
    simp only [hr] at h
    exact absurd h (by simp)

/-- C8 as amended: when every DMIR model and enum name has a matching AST
entity, every relation field's `rel_info.to` names an existing DMIR model,
*and* every DMIR relation field exists as a field of the matching AST model
(needed by the ambiguity rule's span lookup), neither pass ever aborts with
the state-error message; dropping the last hypothesis the claim fails (see the
counterexample). -/
theorem claim_C8_amended :
    ∀ (source : Option Datasource) (ast_schema : SchemaAst) (schema : Datamodel),
      (∀ model ∈ schema.models, (ast_schema.find_model model.name).isSome) →
      (∀ declared_enum ∈ schema.enums, (ast_schema.find_enum declared_enum.name).isSome) →
      (∀ model ∈ schema.models, ∀ rf ∈ model.relation_fields,
        (schema.find_model rf.relation_info.«to»).isSome) →
      (∀ model ∈ schema.models, ∀ rf ∈ model.relation_fields,
        (SchemaAst.find_field ast_schema model.name rf.name).isSome) →
      validate source ast_schema schema ≠ .error STATE_ERROR
        ∧ post_standardisation_validate source ast_schema schema ≠ .error STATE_ERROR := by
  intro source ast_schema schema h1 h2 h3 h4
  constructor
  · intro hbad
    unfold validate at hbad
    cases hcol : collected_errors source ast_schema schema with
    | error m =>
      rw [hcol] at hbad
      have hm2 : (Except.error m : Except String (Except (List DatamodelError) Unit))
          = .error STATE_ERROR := hbad
      injection hm2 with h5
      subst h5
      revert hcol
      intro hcol
      refine (?_ : not_state_error (collected_errors source ast_schema schema)) _ hcol rfl
      intro m3 hc
      unfold collected_errors at hc
      cases hidx : validate_names_for_indexes source ast_schema schema with
      | error m4 =>
        simp only [hidx] at hc
        have hm4 : (Except.error m4 : Except String (List DatamodelError)) = .error m3 := hc
        injection hm4 with h6
        subst h6
        exact validate_names_for_indexes_not_state _ _ _ _ hidx
      | ok index_errs =>
      simp only [hidx] at hc
      cases hmods : except_concat_map (validate_model_step source ast_schema schema) schema.models with
      | error m4 =>
        simp only [hmods] at hc
        have hm4 : (Except.error m4 : Except String (List DatamodelError)) = .error m3 := hc
        injection hm4 with h6
        subst h6
        refine except_concat_map_not_state _ _ (fun model hmem => ?_) _ hmods
        exact validate_model_step_not_state source ast_schema schema model
          (h1 model hmem) (h3 model hmem) (h4 model hmem)
      | ok model_errs =>
      simp only [hmods] at hc
      cases hens : except_concat_map (validate_enum_step ast_schema) schema.enums with
      | error m4 =>
        simp only [hens] at hc
        have hm4 : (Except.error m4 : Except String (List DatamodelError)) = .error m3 := hc
        injection hm4 with h6
        subst h6
        refine except_concat_map_not_state _ _ (fun declared_enum hmem => ?_) _ hens
        intro m5 h5
        rcases validate_enum_step_ok ast_schema declared_enum (h2 declared_enum hmem) with ⟨r, hr⟩
        rw [hr] at h5
        exact absurd h5 (by simp)
      | ok enum_errs =>
      simp only [hens] at hc
      exact absurd hc (by simp)
    | ok all_errors =>
      rw [hcol] at hbad
      exact absurd hbad (by simp)
  · intro hbad
    unfold post_standardisation_validate at hbad
    cases hcol : post_collected_errors source ast_schema schema with
    | error m =>
      rw [hcol] at hbad
      unfold post_collected_errors at hcol
      rcases except_concat_map_ok (fun model =>
          match expect_state (ast_schema.find_model model.name) with
          | .error m => .error m
          | .ok ast_model => validate_relation_arguments_bla source schema ast_model model)
        schema.models (fun model hmem => by
        obtain ⟨am, ham⟩ := Option.isSome_iff_exists.mp (h1 model hmem)
        rcases validate_relation_arguments_bla_ok source schema am model (h3 model hmem) with ⟨r, hr⟩
        refine ⟨r, ?_⟩
        simp only [ham, expect_state]
        exact hr) with ⟨r, hr⟩
      rw [hr] at hcol
      exact absurd hcol (by simp)
    | ok all_errors =>
      rw [hcol] at hbad
      exact absurd hbad (by simp)

/-- Two unnamed relation fields of `A` pointing at `B`; the AST model `A`
carries no fields at all. -/
def c8_model_a : Model :=
  ⟨"A", [.relation ⟨"a1", .optional, ⟨"B", "", [], []⟩, false⟩,
         .relation ⟨"a2", .optional, ⟨"B", "", [], []⟩, false⟩], [], [], false⟩

def c8_model_b : Model := ⟨"B", [], [], [], false⟩

def c8_dm : Datamodel := ⟨[c8_model_a, c8_model_b], []⟩

def c8_ast : SchemaAst :=
  ⟨[⟨⟨"A", ⟨0, 1⟩⟩, [], [], ⟨0, 10⟩⟩, ⟨⟨"B", ⟨11, 12⟩⟩, [], [], ⟨11, 20⟩⟩], []⟩

/-- Counterexample to C8: every DMIR model and enum name matches an AST
entity, and every `rel_info.to` resolves in the DMIR, yet `validate` still
aborts with the state-error message — the ambiguity rule's
`find_field(...).expect(STATE_ERROR)` span lookup fails because the relation
fields are absent from the AST model. -/
theorem claim_C8_counterexample :
    (c8_dm.models.all (fun model => (c8_ast.find_model model.name).isSome)) = true
      ∧ (c8_dm.enums.all (fun declared_enum => (c8_ast.find_enum declared_enum.name).isSome)) = true
      ∧ (c8_dm.models.all (fun model =>
          model.relation_fields.all (fun rf => (c8_dm.find_model rf.relation_info.«to»).isSome))) = true
      ∧ validate none c8_ast c8_dm = .error STATE_ERROR :=
  ⟨rfl, rfl, rfl, rfl⟩

def c8w_dm : Datamodel := ⟨[⟨"C8W", [.scalar ⟨"i", .base .int, .required, true, false, none⟩], [], [], false⟩], []⟩

def c8w_ast : SchemaAst := ⟨[⟨⟨"C8W", ⟨0, 3⟩⟩, [⟨⟨"i", ⟨4, 5⟩⟩, [⟨⟨"id", ⟨6, 8⟩⟩, ⟨6, 8⟩⟩], ⟨4, 9⟩⟩], [], ⟨0, 10⟩⟩], []⟩

/-- Witness for the amended C8 at a concrete input. -/
theorem claim_C8_amended_witness :
    validate none c8w_ast c8w_dm ≠ .error STATE_ERROR
      ∧ post_standardisation_validate none c8w_ast c8w_dm ≠ .error STATE_ERROR :=
  claim_C8_amended none c8w_ast c8w_dm
    (by decide) (by decide) (by decide) (by decide)

end Prisma
